import Mathlib

/-!
Shallow embedding of the size-classed block cache allocator of this repository
(`alloc.c` section of the source: `_npy_alloc_cache`, `_npy_free_cache`,
`_npy_clear_cache`, the `npy_alloc_cache*` / `npy_free_cache*` entry points,
the aligned allocator `PyDataMem_NEW` / `PyDataMem_NEW_ZEROED` /
`PyDataMem_FREE` / `PyDataMem_RENEW`, the alignment configuration
`npy_datamem_get_align` / `npy_datamem_set_align`, and the event hook).

Addresses are natural numbers, `0` playing the role of `NULL`.  Memory is a
byte store `Nat → Nat`.  The C library allocator (`malloc` / `calloc` /
`realloc` / `free`) is modelled as an oracle-driven state transformer: the
`fresh` list supplies, in order, the base address each system allocation
returns (`0` models allocation failure), and `blocks` tracks the live system
allocations with their byte sizes.  `realloc` preserves the first
`min(oldSize, newSize)` bytes of the block, as the C standard guarantees.
-/

set_option maxRecDepth 8192

namespace NpyAlloc

/-- Addresses; `0` is `NULL`. -/
abbrev Ptr := Nat

/-- Byte-addressed memory. -/
abbrev Mem := Nat → Nat

/-- `NBUCKETS`: number of buckets of the data cache. -/
def NBUCKETS : Nat := 1024

/-- `NBUCKETS_DIM`: number of buckets of the dimension cache. -/
def NBUCKETS_DIM : Nat := 16

/-- `NCACHE`: number of cache entries per bucket. -/
def NCACHE : Nat := 7

/-- `MIN_ALIGN`: minimum valid alignment. -/
def MIN_ALIGN : Nat := 16

/-- `sizeof(void *)` on the 64-bit platform modelled here. -/
def PTRSIZE : Nat := 8

/-- Byte `i` (little endian) of the machine word `v`. -/
def byteOf (v i : Nat) : Nat := v / 256 ^ i % 256

/-- Store the machine word `v` at the 8 bytes starting at address `a`. -/
def writeWord (m : Mem) (a v : Nat) : Mem :=
  fun x => if a ≤ x ∧ x < a + 8 then byteOf v (x - a) else m x

/-- Read the machine word stored at the 8 bytes starting at address `a`. -/
def readWord (m : Mem) (a : Nat) : Nat :=
  m a + 256 * (m (a + 1) + 256 * (m (a + 2) + 256 * (m (a + 3) +
    256 * (m (a + 4) + 256 * (m (a + 5) + 256 * (m (a + 6) + 256 * m (a + 7)))))))

/-- C `memset(dst, v, n)`. -/
def memsetBytes (m : Mem) (dst v n : Nat) : Mem :=
  fun x => if dst ≤ x ∧ x < dst + n then v else m x

/-- C `memmove(dst, src, n)`: the source bytes are read from a snapshot of the
memory, which is exactly the overlap-safe behaviour `memmove` guarantees. -/
def memmoveBytes (m : Mem) (dst src n : Nat) : Mem :=
  fun x => if dst ≤ x ∧ x < dst + n then m (src + (x - dst)) else m x

/-- A caller writing its payload bytes `l` starting at address `a`
(environment action, used to set up concrete scenarios). -/
def storeBytes (m : Mem) (a : Nat) (l : List Nat) : Mem :=
  fun x => if h : a ≤ x ∧ x - a < l.length then l.get ⟨x - a, h.2⟩ else m x

/-- `cache_bucket`: `available` counts the cached pointers, `ptrs` is the
`NCACHE`-slot array (slots at index `≥ available` are stale, as in C). -/
structure Bucket where
  available : Nat
  ptrs : Nat → Ptr

/-- The whole mutable state the allocator code touches: memory, the system
heap, the two cache tables, the alignment configuration and the event hook.
`hookLog` records the hook invocations `(old, new, size)`, newest first;
`hook` says whether a hook is currently registered. -/
structure AllocState where
  mem : Mem
  blocks : Nat → Option Nat
  fresh : List Ptr
  datacache : Nat → Bucket
  dimcache : Nat → Bucket
  align : Nat
  alignMask : Nat
  hook : Bool
  hookLog : List (Ptr × Ptr × Nat)

/-- Model of C `malloc`: consume the next oracle address (`0` = failure) and
record the allocation size. -/
def sysMalloc (size : Nat) (s : AllocState) : Ptr × AllocState :=
  match s.fresh with
  | [] => (0, s)
  | b :: rest =>
    if b = 0 then (0, { s with fresh := rest })
    else (b, { s with fresh := rest,
                      blocks := fun x => if x = b then some size else s.blocks x })

/-- Model of C `calloc(size, 1)`: as `sysMalloc`, additionally zero-filling
the allocated region. -/
def sysCalloc (size : Nat) (s : AllocState) : Ptr × AllocState :=
  match s.fresh with
  | [] => (0, s)
  | b :: rest =>
    if b = 0 then (0, { s with fresh := rest })
    else (b, { s with fresh := rest,
                      blocks := fun x => if x = b then some size else s.blocks x,
                      mem := memsetBytes s.mem b 0 size })

/-- Model of C `free`: `free(NULL)` is a no-op; otherwise drop the block. -/
def sysFree (p : Ptr) (s : AllocState) : AllocState :=
  if p = 0 then s
  else { s with blocks := fun x => if x = p then none else s.blocks x }

/-- Model of C `realloc(p, size)`: the oracle decides whether the block is
resized in place (next address `= p`), moved (next address fresh, the first
`min(oldSize, newSize)` bytes are copied and the old block is released), or
the call fails (next address `0`; the original block is untouched). -/
def sysRealloc (p size : Nat) (s : AllocState) : Ptr × AllocState :=
  match s.fresh with
  | [] => (0, s)
  | b :: rest =>
    if b = 0 then (0, { s with fresh := rest })
    else if b = p then
      (p, { s with fresh := rest,
                   blocks := fun x => if x = p then some size else s.blocks x })
    else
      (b, { s with fresh := rest,
                   mem := memmoveBytes s.mem b p (min ((s.blocks p).getD 0) size),
                   blocks := fun x => if x = b then some size
                                      else if x = p then none else s.blocks x })

/-- The guarded hook call each `PyDataMem_*` entry point performs: when a hook
is registered, record the invocation `(old, new, size)`. -/
def callHook (old new size : Nat) (s : AllocState) : AllocState :=
  if s.hook then { s with hookLog := (old, new, size) :: s.hookLog } else s

/-- `PyDataMem_SetEventHook` (hook identity abstracted to the `Bool` "a hook
is registered"): swaps the registered hook, returning the previous one. -/
def PyDataMem_SetEventHook (newhook : Bool) (s : AllocState) : Bool × AllocState :=
  (s.hook, { s with hook := newhook })

/-- `get_aligned_size(size) = size + sizeof(void *) + datamem_align_mask`. -/
def get_aligned_size (s : AllocState) (size : Nat) : Nat :=
  size + PTRSIZE + s.alignMask

/-- `x & ~mask` of the C source: for `mask = 2^k - 1` (the only masks the
code ever installs, cf. `npy_datamem_set_align`) this clears the low `k`
bits, i.e. rounds `x` down to a multiple of `mask + 1`. -/
def align_down (x mask : Nat) : Nat := x - x % (mask + 1)

/-- `align_pointer(ptr)`: round `ptr + sizeof(void *) + datamem_align_mask`
down to the alignment, store the original `ptr` in the word immediately
preceding the aligned address, and return the aligned address. -/
def align_pointer (s : AllocState) (ptr : Ptr) : Ptr × AllocState :=
  let aligned := align_down (ptr + PTRSIZE + s.alignMask) s.alignMask
  (aligned, { s with mem := writeWord s.mem (aligned - PTRSIZE) ptr })

/-- `get_original_pointer(aligned_ptr)`: read back the word immediately
preceding the aligned address. -/
def get_original_pointer (s : AllocState) (aligned : Ptr) : Ptr :=
  readWord s.mem (aligned - PTRSIZE)

/-- Modelled from the spec: `npy_mul_with_overflow_intp` is included from
`templ_common.h.src`, which is not under `src/`.  The spec requires the
zeroed-allocation path to "detect multiplication overflow in
`count * elemSize` before allocating" in "the platform's size
representation" (64 bits here).  Returns the overflow flag together with the
product as the stored 64-bit size value. -/
def npy_mul_with_overflow_intp (a b : Nat) : Bool × Nat :=
  (decide (2 ^ 64 ≤ a * b), a * b % 2 ^ 64)

/-- `PyDataMem_NEW(size)`: over-allocate `get_aligned_size(size)` bytes,
align the result (when the system allocator succeeded), then fire the event
hook with `(NULL, result, size)`. -/
def PyDataMem_NEW (size : Nat) (s : AllocState) : Ptr × AllocState :=
  let r := sysMalloc (get_aligned_size s size) s
  let rs := if r.1 = 0 then (0, r.2) else align_pointer r.2 r.1
  (rs.1, callHook 0 rs.1 size rs.2)

/-- `PyDataMem_NEW_ZEROED(nelems, elsize)`: checked multiply first; on
overflow the result is `NULL` and no allocation is attempted; otherwise
`calloc` the over-allocated size and align.  The hook receives the raw
(wrapping) product `nelems * elsize` as its size argument, as in the C. -/
def PyDataMem_NEW_ZEROED (nelems elsize : Nat) (s : AllocState) : Ptr × AllocState :=
  let ov := npy_mul_with_overflow_intp nelems elsize
  if ov.1 then
    (0, callHook 0 0 (nelems * elsize % 2 ^ 64) s)
  else
    let r := sysCalloc (get_aligned_size s ov.2) s
    let rs := if r.1 = 0 then (0, r.2) else align_pointer r.2 r.1
    (rs.1, callHook 0 rs.1 (nelems * elsize % 2 ^ 64) rs.2)

/-- `PyDataMem_FREE(ptr)`: release the original (pre-alignment) allocation
when `ptr` is not `NULL`, then fire the hook with `(ptr, NULL, 0)`
unconditionally. -/
def PyDataMem_FREE (ptr : Ptr) (s : AllocState) : AllocState :=
  let s1 := if ptr ≠ 0 then sysFree (get_original_pointer s ptr) s else s
  callHook ptr 0 0 s1

/-- `PyDataMem_RENEW(ptr, size)`: recover the original base, `realloc` it;
if the base did not move, return `ptr` unchanged; if it moved, re-align the
new base (which stores the new header word) and, when the alignment offset
changed, `memmove` `size` bytes from the old offset within the new base to
the new aligned address.  Fires the hook with `(ptr, result, size)`. -/
def PyDataMem_RENEW (ptr size : Nat) (s : AllocState) : Ptr × AllocState :=
  let original := get_original_pointer s ptr
  let br := sysRealloc original (get_aligned_size s size) s
  let rs :=
    if br.1 = 0 then (0, br.2)
    else if br.1 = original then (ptr, br.2)
    else
      let offset := ptr - original
      let ar := align_pointer br.2 br.1
      let newOffset := ar.1 - br.1
      (ar.1, if newOffset ≠ offset
             then { ar.2 with mem := memmoveBytes ar.2.mem ar.1 (br.1 + offset) size }
             else ar.2)
  (rs.1, callHook ptr rs.1 size rs.2)

/-- `PyArray_malloc` is the `numpy` headers' macro for CPython's raw
`PyMem_Malloc` (declared outside `src/`).  The source comment on the
dimension cache — "uses a different allocator" — and its symmetric release
through `PyArray_free` (no hidden-header recovery, no event hook) pin it down
as the plain system allocator, not the aligned `PyDataMem_*` layer. -/
def PyArray_malloc (size : Nat) (s : AllocState) : Ptr × AllocState :=
  sysMalloc size s

/-- `PyArray_free`, the raw deallocator paired with `PyArray_malloc`. -/
def PyArray_free (p : Ptr) (s : AllocState) : AllocState :=
  sysFree p s

/-- Which of the two cache tables `_npy_*_cache` is pointed at. -/
inductive CacheId where
  | data
  | dim

/-- Read a cache table. -/
def getCache (s : AllocState) (c : CacheId) : Nat → Bucket :=
  match c with
  | .data => s.datacache
  | .dim => s.dimcache

/-- Write a cache table. -/
def setCache (s : AllocState) (c : CacheId) (f : Nat → Bucket) : AllocState :=
  match c with
  | .data => { s with datacache := f }
  | .dim => { s with dimcache := f }

/-- `_npy_alloc_cache(nelem, esz, msz, cache, alloc)`: when `nelem < msz` and
the bucket has a cached pointer, pop the most recently pushed one (slot
`available - 1`); otherwise call the underlying allocator for
`nelem * esz` bytes. -/
def _npy_alloc_cache (nelem esz msz : Nat) (c : CacheId)
    (alloc : Nat → AllocState → Ptr × AllocState) (s : AllocState) :
    Ptr × AllocState :=
  if nelem < msz ∧ 0 < (getCache s c nelem).available then
    let b := getCache s c nelem
    (b.ptrs (b.available - 1),
      setCache s c (fun i => if i = nelem
        then { b with available := b.available - 1 } else getCache s c i))
  else
    alloc (nelem * esz) s

/-- `_npy_free_cache(p, nelem, msz, cache, dealloc)`: when `p` is not `NULL`,
`nelem < msz` and the bucket is not full, push `p` into slot `available`;
otherwise hand `p` to the underlying deallocator. -/
def _npy_free_cache (p : Ptr) (nelem msz : Nat) (c : CacheId)
    (dealloc : Ptr → AllocState → AllocState) (s : AllocState) : AllocState :=
  if p ≠ 0 ∧ nelem < msz ∧ (getCache s c nelem).available < NCACHE then
    let b := getCache s c nelem
    setCache s c (fun i => if i = nelem
      then { available := b.available + 1,
             ptrs := fun j => if j = b.available then p else b.ptrs j }
      else getCache s c i)
  else
    dealloc p s

/-- Loop body of `_npy_clear_cache` for one bucket `nelem`: deallocate its
cached pointers in slot order, then reset its `available` to `0`.  The
deallocators passed to it (`PyDataMem_FREE`) never touch the cache tables,
so reading the bucket once at entry matches the C loop over the live
global. -/
def clearBucket (c : CacheId) (dealloc : Ptr → AllocState → AllocState)
    (s : AllocState) (nelem : Nat) : AllocState :=
  let b := getCache s c nelem
  let s' := (List.range b.available).foldl (fun t i => dealloc (b.ptrs i) t) s
  setCache s' c (fun j => if j = nelem
    then { available := 0, ptrs := (getCache s' c j).ptrs }
    else getCache s' c j)

/-- `_npy_clear_cache(msz, cache, dealloc)`: for each bucket index
`0 ≤ nelem < msz` in order, run `clearBucket`. -/
def _npy_clear_cache (msz : Nat) (c : CacheId)
    (dealloc : Ptr → AllocState → AllocState) (s : AllocState) : AllocState :=
  (List.range msz).foldl (clearBucket c dealloc) s

/-- `npy_alloc_cache(sz)`: the data cache (1-byte classes) over
`PyDataMem_NEW`. -/
def npy_alloc_cache (sz : Nat) (s : AllocState) : Ptr × AllocState :=
  _npy_alloc_cache sz 1 NBUCKETS .data PyDataMem_NEW s

/-- `npy_alloc_cache_zero(sz)`: for `sz < NBUCKETS`, allocate through the
data cache and `memset` the block to zero; otherwise go straight to
`PyDataMem_NEW_ZEROED(sz, 1)`. -/
def npy_alloc_cache_zero (sz : Nat) (s : AllocState) : Ptr × AllocState :=
  if sz < NBUCKETS then
    let p := _npy_alloc_cache sz 1 NBUCKETS .data PyDataMem_NEW s
    if p.1 ≠ 0 then (p.1, { p.2 with mem := memsetBytes p.2.mem p.1 0 sz }) else p
  else
    PyDataMem_NEW_ZEROED sz 1 s

/-- `npy_free_cache(p, sz)`: release into the data cache, overflowing to
`PyDataMem_FREE`. -/
def npy_free_cache (p : Ptr) (sz : Nat) (s : AllocState) : AllocState :=
  _npy_free_cache p sz NBUCKETS .data PyDataMem_FREE s

/-- `npy_alloc_cache_dim(sz)`: clamp `sz` to a minimum of 2, then the
dimension cache (`sizeof(npy_intp)`-byte classes) over `PyArray_malloc`. -/
def npy_alloc_cache_dim (sz : Nat) (s : AllocState) : Ptr × AllocState :=
  let sz := if sz < 2 then 2 else sz
  _npy_alloc_cache sz PTRSIZE NBUCKETS_DIM .dim PyArray_malloc s

/-- `npy_free_cache_dim(p, sz)`: same clamping, release into the dimension
cache, overflowing to `PyArray_free`. -/
def npy_free_cache_dim (p : Ptr) (sz : Nat) (s : AllocState) : AllocState :=
  let sz := if sz < 2 then 2 else sz
  _npy_free_cache p sz NBUCKETS_DIM .dim PyArray_free s

/-- `npy_datamem_get_align()`. -/
def npy_datamem_get_align (s : AllocState) : Nat :=
  s.align

/-- `npy_datamem_set_align(align)`: reject values below `MIN_ALIGN` and
values failing the `(align ^ mask) != (align | mask)` power-of-two test with
`-1`, leaving the state untouched; on success, purge the data cache first
when the alignment increased, then install the new alignment and mask. -/
def npy_datamem_set_align (align : Nat) (s : AllocState) : Int × AllocState :=
  let mask := align - 1
  if align < MIN_ALIGN then (-1, s)
  else if align ^^^ mask ≠ align ||| mask then (-1, s)
  else
    let s1 := if s.align < align then _npy_clear_cache NBUCKETS .data PyDataMem_FREE s
              else s
    (0, { s1 with align := align, alignMask := mask })

/-- The empty bucket. -/
def emptyBucket : Bucket :=
  { available := 0, ptrs := fun _ => 0 }

/-- The process-start state: empty caches, alignment `MIN_ALIGN`, mask
`MIN_ALIGN - 1`, no hook; memory and the heap empty.  The system-allocator
oracle and hook registration are the two environment parameters. -/
def initState (fresh : List Ptr) (hook : Bool) : AllocState :=
  { mem := fun _ => 0
    blocks := fun _ => none
    fresh := fresh
    datacache := fun _ => emptyBucket
    dimcache := fun _ => emptyBucket
    align := MIN_ALIGN
    alignMask := MIN_ALIGN - 1
    hook := hook
    hookLog := [] }

/-- The public operations of the subsystem, with arbitrary arguments: the
alphabet over which reachable states are defined. -/
inductive Op where
  | allocData (sz : Nat)
  | allocDataZero (sz : Nat)
  | freeData (p sz : Nat)
  | allocDim (sz : Nat)
  | freeDim (p sz : Nat)
  | memNew (sz : Nat)
  | memNewZeroed (n e : Nat)
  | memFree (p : Nat)
  | memRenew (p sz : Nat)
  | setAlign (a : Nat)
  | setHook (b : Bool)

/-- Run one public operation (discarding its return value). -/
def applyOp (s : AllocState) : Op → AllocState
  | .allocData sz => (npy_alloc_cache sz s).2
  | .allocDataZero sz => (npy_alloc_cache_zero sz s).2
  | .freeData p sz => npy_free_cache p sz s
  | .allocDim sz => (npy_alloc_cache_dim sz s).2
  | .freeDim p sz => npy_free_cache_dim p sz s
  | .memNew sz => (PyDataMem_NEW sz s).2
  | .memNewZeroed n e => (PyDataMem_NEW_ZEROED n e s).2
  | .memFree p => PyDataMem_FREE p s
  | .memRenew p sz => (PyDataMem_RENEW p sz s).2
  | .setAlign a => (npy_datamem_set_align a s).2
  | .setHook b => (PyDataMem_SetEventHook b s).2

/-- Run a sequence of public operations. -/
def runOps (s : AllocState) (l : List Op) : AllocState :=
  l.foldl applyOp s

/-- The bucket-capacity invariant: no bucket of either cache ever holds more
than `NCACHE` (7) cached pointers. -/
def CapInv (s : AllocState) : Prop :=
  ∀ i, (s.datacache i).available ≤ NCACHE ∧ (s.dimcache i).available ≤ NCACHE

/-! Concrete scenario states, all reachable from `initState` by the public
operations; they instantiate the claims' scenarios. -/

/-- Reallocation scenario, step 0: from a fresh start with system-allocator
oracle `[16, 96]`, configure alignment 32. -/
def renewS0 : AllocState :=
  (npy_datamem_set_align 32 (initState [16, 96] false)).2

/-- Reallocation scenario, step 1: allocate 16 bytes (`malloc` returns base
16, the user address is 32, offset 16). -/
def renewS1 : AllocState :=
  (PyDataMem_NEW 16 renewS0).2

/-- The caller's 16 payload bytes. -/
def renewPayload : List Nat :=
  [100, 101, 102, 103, 104, 105, 106, 107, 108, 109, 110, 111, 112, 113, 114, 115]

/-- Reallocation scenario, step 2: the caller fills its 16-byte region at
address 32 with `renewPayload`. -/
def renewS2 : AllocState :=
  { renewS1 with mem := storeBytes renewS1.mem 32 renewPayload }

/-- Dimension-alignment scenario: from a fresh start with oracle `[16]`,
configure alignment 64 (a legal `set_alignment` call). -/
def dimAlignS0 : AllocState :=
  (npy_datamem_set_align 64 (initState [16] false)).2

/-- Alignment-raise scenario, step 0: fresh start, oracle `[16]`. -/
def raiseS0 : AllocState := initState [16] false

/-- Alignment-raise scenario: the address the first 100-byte data allocation
returns (it is 32, aligned to 16 but not to 64). -/
def raiseP : Ptr := (npy_alloc_cache 100 raiseS0).1

/-- Alignment-raise scenario, step 1: state after that allocation. -/
def raiseS1 : AllocState := (npy_alloc_cache 100 raiseS0).2

/-- Alignment-raise scenario, step 2: alignment successfully raised to 64
(this purges the — empty — data cache). -/
def raiseS2 : AllocState := (npy_datamem_set_align 64 raiseS1).2

/-- Alignment-raise scenario, step 3: the caller frees its block, which goes
into the (just purged, hence non-full) bucket for size class 100. -/
def raiseS3 : AllocState := npy_free_cache raiseP 100 raiseS2

/-- Event-hook scenario: fresh start with a hook registered, oracle `[16]`. -/
def hookS0 : AllocState := initState [16] true

/-! Helper lemmas: projections of the primitives.  The simp set below lets
every later proof push a state projection through an operation chain. -/

theorem ite_fst {α β : Type} {c : Prop} [Decidable c] (a b : α × β) :
    (if c then a else b).1 = if c then a.1 else b.1 := by
  split <;> rfl

theorem ite_snd {α β : Type} {c : Prop} [Decidable c] (a b : α × β) :
    (if c then a else b).2 = if c then a.2 else b.2 := by
  split <;> rfl

@[simp] theorem callHook_datacache (o n z : Nat) (s : AllocState) :
    (callHook o n z s).datacache = s.datacache := by
  unfold callHook; split <;> rfl

@[simp] theorem callHook_dimcache (o n z : Nat) (s : AllocState) :
    (callHook o n z s).dimcache = s.dimcache := by
  unfold callHook; split <;> rfl

@[simp] theorem callHook_align (o n z : Nat) (s : AllocState) :
    (callHook o n z s).align = s.align := by
  unfold callHook; split <;> rfl

@[simp] theorem callHook_alignMask (o n z : Nat) (s : AllocState) :
    (callHook o n z s).alignMask = s.alignMask := by
  unfold callHook; split <;> rfl

@[simp] theorem callHook_hook (o n z : Nat) (s : AllocState) :
    (callHook o n z s).hook = s.hook := by
  unfold callHook; split <;> rfl

@[simp] theorem callHook_mem (o n z : Nat) (s : AllocState) :
    (callHook o n z s).mem = s.mem := by
  unfold callHook; split <;> rfl

@[simp] theorem callHook_blocks (o n z : Nat) (s : AllocState) :
    (callHook o n z s).blocks = s.blocks := by
  unfold callHook; split <;> rfl

@[simp] theorem callHook_fresh (o n z : Nat) (s : AllocState) :
    (callHook o n z s).fresh = s.fresh := by
  unfold callHook; split <;> rfl

theorem callHook_hookLog_true (o n z : Nat) (s : AllocState) (h : s.hook = true) :
    (callHook o n z s).hookLog = (o, n, z) :: s.hookLog := by
  unfold callHook; rw [if_pos h]

theorem callHook_hookLog_false (o n z : Nat) (s : AllocState) (h : s.hook = false) :
    (callHook o n z s).hookLog = s.hookLog := by
  unfold callHook; rw [h]; rfl

@[simp] theorem align_pointer_snd_datacache (s : AllocState) (p : Ptr) :
    (align_pointer s p).2.datacache = s.datacache := rfl

@[simp] theorem align_pointer_snd_dimcache (s : AllocState) (p : Ptr) :
    (align_pointer s p).2.dimcache = s.dimcache := rfl

@[simp] theorem align_pointer_snd_align (s : AllocState) (p : Ptr) :
    (align_pointer s p).2.align = s.align := rfl

@[simp] theorem align_pointer_snd_alignMask (s : AllocState) (p : Ptr) :
    (align_pointer s p).2.alignMask = s.alignMask := rfl

@[simp] theorem align_pointer_snd_hook (s : AllocState) (p : Ptr) :
    (align_pointer s p).2.hook = s.hook := rfl

@[simp] theorem align_pointer_snd_hookLog (s : AllocState) (p : Ptr) :
    (align_pointer s p).2.hookLog = s.hookLog := rfl

@[simp] theorem align_pointer_snd_blocks (s : AllocState) (p : Ptr) :
    (align_pointer s p).2.blocks = s.blocks := rfl

@[simp] theorem align_pointer_snd_fresh (s : AllocState) (p : Ptr) :
    (align_pointer s p).2.fresh = s.fresh := rfl

theorem align_pointer_fst (s : AllocState) (p : Ptr) :
    (align_pointer s p).1 = align_down (p + PTRSIZE + s.alignMask) s.alignMask := rfl

theorem align_pointer_snd_mem (s : AllocState) (p : Ptr) :
    (align_pointer s p).2.mem
      = writeWord s.mem ((align_pointer s p).1 - PTRSIZE) p := rfl

@[simp] theorem sysMalloc_datacache (n : Nat) (s : AllocState) :
    (sysMalloc n s).2.datacache = s.datacache := by
  unfold sysMalloc
  rcases hf : s.fresh with _ | ⟨b, rest⟩ <;> simp only [hf] <;> (try split_ifs) <;> rfl

@[simp] theorem sysMalloc_dimcache (n : Nat) (s : AllocState) :
    (sysMalloc n s).2.dimcache = s.dimcache := by
  unfold sysMalloc
  rcases hf : s.fresh with _ | ⟨b, rest⟩ <;> simp only [hf] <;> (try split_ifs) <;> rfl

@[simp] theorem sysMalloc_align (n : Nat) (s : AllocState) :
    (sysMalloc n s).2.align = s.align := by
  unfold sysMalloc
  rcases hf : s.fresh with _ | ⟨b, rest⟩ <;> simp only [hf] <;> (try split_ifs) <;> rfl

@[simp] theorem sysMalloc_alignMask (n : Nat) (s : AllocState) :
    (sysMalloc n s).2.alignMask = s.alignMask := by
  unfold sysMalloc
  rcases hf : s.fresh with _ | ⟨b, rest⟩ <;> simp only [hf] <;> (try split_ifs) <;> rfl

@[simp] theorem sysMalloc_hook (n : Nat) (s : AllocState) :
    (sysMalloc n s).2.hook = s.hook := by
  unfold sysMalloc
  rcases hf : s.fresh with _ | ⟨b, rest⟩ <;> simp only [hf] <;> (try split_ifs) <;> rfl

@[simp] theorem sysMalloc_hookLog (n : Nat) (s : AllocState) :
    (sysMalloc n s).2.hookLog = s.hookLog := by
  unfold sysMalloc
  rcases hf : s.fresh with _ | ⟨b, rest⟩ <;> simp only [hf] <;> (try split_ifs) <;> rfl

@[simp] theorem sysMalloc_mem (n : Nat) (s : AllocState) :
    (sysMalloc n s).2.mem = s.mem := by
  unfold sysMalloc
  rcases hf : s.fresh with _ | ⟨b, rest⟩ <;> simp only [hf] <;> (try split_ifs) <;> rfl

@[simp] theorem sysCalloc_datacache (n : Nat) (s : AllocState) :
    (sysCalloc n s).2.datacache = s.datacache := by
  unfold sysCalloc
  rcases hf : s.fresh with _ | ⟨b, rest⟩ <;> simp only [hf] <;> (try split_ifs) <;> rfl

@[simp] theorem sysCalloc_dimcache (n : Nat) (s : AllocState) :
    (sysCalloc n s).2.dimcache = s.dimcache := by
  unfold sysCalloc
  rcases hf : s.fresh with _ | ⟨b, rest⟩ <;> simp only [hf] <;> (try split_ifs) <;> rfl

@[simp] theorem sysCalloc_align (n : Nat) (s : AllocState) :
    (sysCalloc n s).2.align = s.align := by
  unfold sysCalloc
  rcases hf : s.fresh with _ | ⟨b, rest⟩ <;> simp only [hf] <;> (try split_ifs) <;> rfl

@[simp] theorem sysCalloc_alignMask (n : Nat) (s : AllocState) :
    (sysCalloc n s).2.alignMask = s.alignMask := by
  unfold sysCalloc
  rcases hf : s.fresh with _ | ⟨b, rest⟩ <;> simp only [hf] <;> (try split_ifs) <;> rfl

@[simp] theorem sysCalloc_hook (n : Nat) (s : AllocState) :
    (sysCalloc n s).2.hook = s.hook := by
  unfold sysCalloc
  rcases hf : s.fresh with _ | ⟨b, rest⟩ <;> simp only [hf] <;> (try split_ifs) <;> rfl

@[simp] theorem sysCalloc_hookLog (n : Nat) (s : AllocState) :
    (sysCalloc n s).2.hookLog = s.hookLog := by
  unfold sysCalloc
  rcases hf : s.fresh with _ | ⟨b, rest⟩ <;> simp only [hf] <;> (try split_ifs) <;> rfl

@[simp] theorem sysFree_datacache (p : Ptr) (s : AllocState) :
    (sysFree p s).datacache = s.datacache := by
  unfold sysFree; split <;> rfl

@[simp] theorem sysFree_dimcache (p : Ptr) (s : AllocState) :
    (sysFree p s).dimcache = s.dimcache := by
  unfold sysFree; split <;> rfl

@[simp] theorem sysFree_align (p : Ptr) (s : AllocState) :
    (sysFree p s).align = s.align := by
  unfold sysFree; split <;> rfl

@[simp] theorem sysFree_alignMask (p : Ptr) (s : AllocState) :
    (sysFree p s).alignMask = s.alignMask := by
  unfold sysFree; split <;> rfl

@[simp] theorem sysFree_hook (p : Ptr) (s : AllocState) :
    (sysFree p s).hook = s.hook := by
  unfold sysFree; split <;> rfl

@[simp] theorem sysFree_hookLog (p : Ptr) (s : AllocState) :
    (sysFree p s).hookLog = s.hookLog := by
  unfold sysFree; split <;> rfl

@[simp] theorem sysFree_mem (p : Ptr) (s : AllocState) :
    (sysFree p s).mem = s.mem := by
  unfold sysFree; split <;> rfl

@[simp] theorem sysFree_fresh (p : Ptr) (s : AllocState) :
    (sysFree p s).fresh = s.fresh := by
  unfold sysFree; split <;> rfl

@[simp] theorem sysRealloc_datacache (p n : Nat) (s : AllocState) :
    (sysRealloc p n s).2.datacache = s.datacache := by
  unfold sysRealloc
  rcases hf : s.fresh with _ | ⟨b, rest⟩ <;> simp only [hf] <;> (try split_ifs) <;> rfl

@[simp] theorem sysRealloc_dimcache (p n : Nat) (s : AllocState) :
    (sysRealloc p n s).2.dimcache = s.dimcache := by
  unfold sysRealloc
  rcases hf : s.fresh with _ | ⟨b, rest⟩ <;> simp only [hf] <;> (try split_ifs) <;> rfl

@[simp] theorem sysRealloc_align (p n : Nat) (s : AllocState) :
    (sysRealloc p n s).2.align = s.align := by
  unfold sysRealloc
  rcases hf : s.fresh with _ | ⟨b, rest⟩ <;> simp only [hf] <;> (try split_ifs) <;> rfl

@[simp] theorem sysRealloc_alignMask (p n : Nat) (s : AllocState) :
    (sysRealloc p n s).2.alignMask = s.alignMask := by
  unfold sysRealloc
  rcases hf : s.fresh with _ | ⟨b, rest⟩ <;> simp only [hf] <;> (try split_ifs) <;> rfl

@[simp] theorem sysRealloc_hook (p n : Nat) (s : AllocState) :
    (sysRealloc p n s).2.hook = s.hook := by
  unfold sysRealloc
  rcases hf : s.fresh with _ | ⟨b, rest⟩ <;> simp only [hf] <;> (try split_ifs) <;> rfl

@[simp] theorem sysRealloc_hookLog (p n : Nat) (s : AllocState) :
    (sysRealloc p n s).2.hookLog = s.hookLog := by
  unfold sysRealloc
  rcases hf : s.fresh with _ | ⟨b, rest⟩ <;> simp only [hf] <;> (try split_ifs) <;> rfl

/-! Cache-table algebra. -/

@[simp] theorem getCache_setCache (s : AllocState) (c : CacheId) (f : Nat → Bucket) :
    getCache (setCache s c f) c = f := by
  cases c <;> rfl

@[simp] theorem setCache_data_dimcache (s : AllocState) (f : Nat → Bucket) :
    (setCache s .data f).dimcache = s.dimcache := rfl

@[simp] theorem setCache_dim_datacache (s : AllocState) (f : Nat → Bucket) :
    (setCache s .dim f).datacache = s.datacache := rfl

@[simp] theorem setCache_align (s : AllocState) (c : CacheId) (f : Nat → Bucket) :
    (setCache s c f).align = s.align := by
  cases c <;> rfl

@[simp] theorem setCache_alignMask (s : AllocState) (c : CacheId) (f : Nat → Bucket) :
    (setCache s c f).alignMask = s.alignMask := by
  cases c <;> rfl

@[simp] theorem setCache_hook (s : AllocState) (c : CacheId) (f : Nat → Bucket) :
    (setCache s c f).hook = s.hook := by
  cases c <;> rfl

@[simp] theorem setCache_hookLog (s : AllocState) (c : CacheId) (f : Nat → Bucket) :
    (setCache s c f).hookLog = s.hookLog := by
  cases c <;> rfl

@[simp] theorem setCache_mem (s : AllocState) (c : CacheId) (f : Nat → Bucket) :
    (setCache s c f).mem = s.mem := by
  cases c <;> rfl

@[simp] theorem setCache_blocks (s : AllocState) (c : CacheId) (f : Nat → Bucket) :
    (setCache s c f).blocks = s.blocks := by
  cases c <;> rfl

@[simp] theorem setCache_fresh (s : AllocState) (c : CacheId) (f : Nat → Bucket) :
    (setCache s c f).fresh = s.fresh := by
  cases c <;> rfl

theorem setCache_getCache (s : AllocState) (c : CacheId) :
    setCache s c (getCache s c) = s := by
  cases c <;> rfl

/-- A state observation that every step of a fold leaves alone is left alone
by the whole fold. -/
theorem foldl_preserve {α : Type} {β : Type} (g : AllocState → α)
    (f : AllocState → β → AllocState) (h : ∀ s b, g (f s b) = g s) :
    ∀ (l : List β) (s : AllocState), g (List.foldl f s l) = g s := by
  intro l
  induction l with
  | nil => intro s; rfl
  | cons a t ih => intro s; rw [List.foldl_cons, ih, h]

/-- `clearBucket` leaves any observation alone that `dealloc` and
`setCache _ c _` leave alone. -/
theorem clearBucket_preserve {α : Type} (g : AllocState → α) (c : CacheId)
    (dealloc : Ptr → AllocState → AllocState)
    (hd : ∀ p t, g (dealloc p t) = g t)
    (hset : ∀ t f, g (setCache t c f) = g t) (s : AllocState) (nelem : Nat) :
    g (clearBucket c dealloc s nelem) = g s := by
  unfold clearBucket
  rw [hset]
  exact foldl_preserve g _ (fun u i => hd _ u) _ s

/-- `_npy_clear_cache` only touches the cache table it is pointed at: any
observation that `dealloc` and `setCache _ c _` preserve is preserved. -/
theorem clear_cache_preserve {α : Type} (g : AllocState → α) (msz : Nat) (c : CacheId)
    (dealloc : Ptr → AllocState → AllocState)
    (hd : ∀ p t, g (dealloc p t) = g t)
    (hset : ∀ t f, g (setCache t c f) = g t) (s : AllocState) :
    g (_npy_clear_cache msz c dealloc s) = g s := by
  unfold _npy_clear_cache
  exact foldl_preserve g _ (fun t nelem => clearBucket_preserve g c dealloc hd hset t nelem) _ s

/-- `clearBucket` zeroes the bucket it processes. -/
theorem clearBucket_self (c : CacheId) (dealloc : Ptr → AllocState → AllocState)
    (s : AllocState) (nelem : Nat) :
    (getCache (clearBucket c dealloc s nelem) c nelem).available = 0 := by
  unfold clearBucket
  simp only [getCache_setCache, if_pos]

/-- `clearBucket` leaves every other bucket of its own table as the
deallocation steps left it — which is untouched when `dealloc` does not
write the table. -/
theorem clearBucket_other (c : CacheId) (dealloc : Ptr → AllocState → AllocState)
    (hd : ∀ p t, getCache (dealloc p t) c = getCache t c)
    (s : AllocState) (nelem j : Nat) (hj : j ≠ nelem) :
    getCache (clearBucket c dealloc s nelem) c j = getCache s c j := by
  unfold clearBucket
  simp only [getCache_setCache]
  rw [if_neg hj]
  rw [foldl_preserve (fun u => getCache u c) _ (fun u i => hd _ u)]

/-- An already-empty bucket stays empty through `clearBucket`. -/
theorem clearBucket_keeps_zero (c : CacheId) (dealloc : Ptr → AllocState → AllocState)
    (hd : ∀ p t, getCache (dealloc p t) c = getCache t c)
    (s : AllocState) (nelem j : Nat) (hj : (getCache s c j).available = 0) :
    (getCache (clearBucket c dealloc s nelem) c j).available = 0 := by
  by_cases h : j = nelem
  · rw [h]; exact clearBucket_self c dealloc s nelem
  · rw [clearBucket_other c dealloc hd s nelem j h]; exact hj

/-- Empty buckets stay empty through any run of `clearBucket` steps. -/
theorem clearFold_keeps_zero (c : CacheId) (dealloc : Ptr → AllocState → AllocState)
    (hd : ∀ p t, getCache (dealloc p t) c = getCache t c) :
    ∀ (l : List Nat) (t : AllocState) (i : Nat), (getCache t c i).available = 0 →
      (getCache (List.foldl (clearBucket c dealloc) t l) c i).available = 0 := by
  intro l
  induction l with
  | nil => intro t i hi; exact hi
  | cons a rest ih =>
    intro t i hi
    rw [List.foldl_cons]
    exact ih _ i (clearBucket_keeps_zero c dealloc hd t a i hi)

/-- After `_npy_clear_cache`, every bucket of the cleared table with index
below `msz` has `available = 0`. -/
theorem clear_cache_available (msz : Nat) (c : CacheId)
    (dealloc : Ptr → AllocState → AllocState)
    (hd : ∀ p t, getCache (dealloc p t) c = getCache t c) (s : AllocState) :
    ∀ i, i < msz → (getCache (_npy_clear_cache msz c dealloc s) c i).available = 0 := by
  unfold _npy_clear_cache
  have main : ∀ (l : List Nat) (t : AllocState) (i : Nat), i ∈ l →
      (getCache (List.foldl (clearBucket c dealloc) t l) c i).available = 0 := by
    intro l
    induction l with
    | nil => intro t i hi; cases hi
    | cons a rest ih =>
      intro t i hi
      rw [List.foldl_cons]
      rcases List.mem_cons.mp hi with hia | hirest
      · refine clearFold_keeps_zero c dealloc hd rest _ i ?_
        rw [hia]
        exact clearBucket_self c dealloc t a
      · exact ih _ i hirest
  intro i hi
  exact main (List.range msz) s i (List.mem_range.mpr hi)

/-- Buckets of the cleared table with index outside the cleared range are
untouched by `_npy_clear_cache`. -/
theorem clear_cache_untouched (msz : Nat) (c : CacheId)
    (dealloc : Ptr → AllocState → AllocState)
    (hd : ∀ p t, getCache (dealloc p t) c = getCache t c) (s : AllocState) :
    ∀ i, msz ≤ i → getCache (_npy_clear_cache msz c dealloc s) c i = getCache s c i := by
  unfold _npy_clear_cache
  have main : ∀ (l : List Nat) (t : AllocState) (i : Nat), i ∉ l →
      getCache (List.foldl (clearBucket c dealloc) t l) c i = getCache t c i := by
    intro l
    induction l with
    | nil => intro t i _; rfl
    | cons a rest ih =>
      intro t i hi
      rw [List.foldl_cons, ih _ i (fun h => hi (List.mem_cons_of_mem a h))]
      exact clearBucket_other c dealloc hd t a i
        (fun h => hi (by rw [h]; exact List.mem_cons_self a rest))
  intro i hi
  exact main (List.range msz) s i (fun h => absurd (List.mem_range.mp h) (Nat.not_lt.mpr hi))

/-- Purging a cache whose buckets are all empty changes nothing at all. -/
theorem clear_cache_of_empty (msz : Nat) (c : CacheId)
    (dealloc : Ptr → AllocState → AllocState) (s : AllocState)
    (h : ∀ i, (getCache s c i).available = 0) :
    _npy_clear_cache msz c dealloc s = s := by
  unfold _npy_clear_cache
  have hstep : ∀ nelem, clearBucket c dealloc s nelem = s := by
    intro nelem
    unfold clearBucket
    simp only [h nelem, List.range_zero, List.foldl_nil]
    have hfun : (fun j => if j = nelem
        then ({ available := 0, ptrs := (getCache s c j).ptrs } : Bucket)
        else getCache s c j) = getCache s c := by
      funext j
      split
      · have hj := h j
        rcases hb : getCache s c j with ⟨av, ps⟩
        rw [hb] at hj
        simp only at hj
        rw [hj]
      · rfl
    rw [hfun, setCache_getCache]
  have main : ∀ l : List Nat, List.foldl (clearBucket c dealloc) s l = s := by
    intro l
    induction l with
    | nil => rfl
    | cons a rest ih => rw [List.foldl_cons, hstep a, ih]
  exact main _

attribute [irreducible] _npy_clear_cache

/-! Machine-word store/load and alignment arithmetic. -/

theorem writeWord_inside (m : Mem) (a v x : Nat) (h1 : a ≤ x) (h2 : x < a + 8) :
    writeWord m a v x = byteOf v (x - a) := by
  unfold writeWord
  rw [if_pos ⟨h1, h2⟩]

theorem writeWord_outside (m : Mem) (a v x : Nat) (h : x < a ∨ a + 8 ≤ x) :
    writeWord m a v x = m x := by
  unfold writeWord
  rw [if_neg]
  omega

/-- Loading the word just stored returns the stored value (for values that
fit in the 64-bit word). -/
theorem readWord_writeWord (m : Mem) (a v : Nat) (hv : v < 2 ^ 64) :
    readWord (writeWord m a v) a = v := by
  unfold readWord
  have w : ∀ i, i < 8 → writeWord m a v (a + i) = byteOf v i := by
    intro i hi
    rw [writeWord_inside m a v (a + i) (Nat.le_add_right a i) (by omega)]
    congr 1
    omega
  have w0 : writeWord m a v a = byteOf v 0 := by
    have := w 0 (by omega)
    simpa using this
  rw [w0, w 1 (by omega), w 2 (by omega), w 3 (by omega), w 4 (by omega),
    w 5 (by omega), w 6 (by omega), w 7 (by omega)]
  unfold byteOf
  have hd : ∀ i : Nat, v / 256 ^ i / 256 = v / 256 ^ (i + 1) := by
    intro i
    rw [Nat.div_div_eq_div_mul, pow_succ]
  have h7 : v / 256 ^ 7 % 256 = v / 256 ^ 7 := by
    apply Nat.mod_eq_of_lt
    apply Nat.div_lt_of_lt_mul
    calc v < 2 ^ 64 := hv
      _ = 256 ^ 7 * 256 := by norm_num
  rw [h7]
  have c : ∀ i : Nat, v / 256 ^ i % 256 + 256 * (v / 256 ^ (i + 1)) = v / 256 ^ i := by
    intro i
    rw [← hd i]
    exact Nat.mod_add_div _ 256
  rw [c 6, c 5, c 4, c 3, c 2, c 1, c 0]
  norm_num

theorem align_down_le (x mask : Nat) : align_down x mask ≤ x :=
  Nat.sub_le _ _

theorem align_down_ge (x mask : Nat) : x - mask ≤ align_down x mask := by
  unfold align_down
  have := Nat.mod_lt x (y := mask + 1) (by omega)
  omega

theorem align_down_mod (x mask : Nat) : align_down x mask % (mask + 1) = 0 := by
  unfold align_down
  have h := Nat.div_add_mod x (mask + 1)
  have : x - x % (mask + 1) = (mask + 1) * (x / (mask + 1)) := by omega
  rw [this]
  exact Nat.mul_mod_right _ _

/-! The `(align ^ mask) != (align | mask)` test of `npy_datamem_set_align`
is exactly "not a power of two" (for the values `≥ MIN_ALIGN` that reach
it). -/

theorem xor_eq_lor_iff_land_zero (a b : Nat) :
    (a ^^^ b = a ||| b) ↔ a &&& b = 0 := by
  constructor
  · intro h
    apply Nat.eq_of_testBit_eq
    intro i
    have hb := congrArg (fun t => Nat.testBit t i) h
    simp only [Nat.testBit_xor, Nat.testBit_or] at hb
    simp only [Nat.testBit_and, Nat.zero_testBit]
    rcases hA : a.testBit i <;> rcases hB : b.testBit i <;>
      rw [hA, hB] at hb <;> simp_all
  · intro h
    apply Nat.eq_of_testBit_eq
    intro i
    have hb := congrArg (fun t => Nat.testBit t i) h
    simp only [Nat.testBit_and, Nat.zero_testBit] at hb
    simp only [Nat.testBit_xor, Nat.testBit_or]
    rcases hA : a.testBit i <;> rcases hB : b.testBit i <;>
      rw [hA, hB] at hb <;> simp_all

theorem land_pred_zero_of_pow2 (k : Nat) : 2 ^ k &&& (2 ^ k - 1) = 0 := by
  apply Nat.eq_of_testBit_eq
  intro i
  simp only [Nat.testBit_and, Nat.zero_testBit, Nat.testBit_two_pow_sub_one]
  by_cases h : i = k
  · subst h
    simp [Nat.testBit_two_pow_self]
  · rw [Nat.testBit_two_pow_of_ne (fun hk => h hk.symm)]
    simp

theorem pow2_of_land_pred_zero (a : Nat) (ha : 1 ≤ a)
    (h : a &&& (a - 1) = 0) : ∃ k, a = 2 ^ k := by
  refine ⟨Nat.log 2 a, ?_⟩
  have hlow : 2 ^ Nat.log 2 a ≤ a := Nat.pow_log_le_self 2 (by omega)
  have hhigh : a < 2 ^ (Nat.log 2 a + 1) := Nat.lt_pow_succ_log_self (by omega) a
  by_contra hne
  -- then `a` and `a - 1` share bit `log2 a`
  have hstrict : 2 ^ Nat.log 2 a < a := lt_of_le_of_ne hlow (fun he => hne he.symm)
  have hbit : ∀ x, 2 ^ Nat.log 2 a ≤ x → x < 2 ^ (Nat.log 2 a + 1) →
      x.testBit (Nat.log 2 a) = true := by
    intro x h1 h2
    rw [Nat.testBit_to_div_mod]
    have : x / 2 ^ Nat.log 2 a = 1 := by
      have hp : 0 < 2 ^ Nat.log 2 a := Nat.pos_pow_of_pos _ (by omega)
      have e1 : 1 ≤ x / 2 ^ Nat.log 2 a := (Nat.one_le_div_iff hp).mpr h1
      have e2 : x / 2 ^ Nat.log 2 a < 2 := by
        apply Nat.div_lt_of_lt_mul
        rw [pow_succ] at h2
        omega
      omega
    simp [this]
  have h1 := hbit a (le_of_lt hstrict) hhigh
  have h2 := hbit (a - 1) (by omega) (by omega)
  have := congrArg (fun t => Nat.testBit t (Nat.log 2 a)) h
  simp only [Nat.testBit_and, Nat.zero_testBit, h1, h2] at this
  simp at this

/-- The source's power-of-two test, characterised: for `a ≥ 1`,
`(a ^ (a-1)) = (a | (a-1))` holds exactly when `a` is a power of two. -/
theorem xor_lor_pow2_iff (a : Nat) (ha : 1 ≤ a) :
    (a ^^^ (a - 1) = a ||| (a - 1)) ↔ ∃ k, a = 2 ^ k := by
  rw [xor_eq_lor_iff_land_zero]
  constructor
  · exact pow2_of_land_pred_zero a ha
  · rintro ⟨k, rfl⟩
    exact land_pred_zero_of_pow2 k

/-! Operation-level consequences of the projection lemmas. -/

@[simp] theorem PyDataMem_NEW_datacache (sz : Nat) (s : AllocState) :
    (PyDataMem_NEW sz s).2.datacache = s.datacache := by
  unfold PyDataMem_NEW; dsimp only; split <;> simp

@[simp] theorem PyDataMem_NEW_dimcache (sz : Nat) (s : AllocState) :
    (PyDataMem_NEW sz s).2.dimcache = s.dimcache := by
  unfold PyDataMem_NEW; dsimp only; split <;> simp

@[simp] theorem PyDataMem_NEW_align (sz : Nat) (s : AllocState) :
    (PyDataMem_NEW sz s).2.align = s.align := by
  unfold PyDataMem_NEW; dsimp only; split <;> simp

@[simp] theorem PyDataMem_NEW_alignMask (sz : Nat) (s : AllocState) :
    (PyDataMem_NEW sz s).2.alignMask = s.alignMask := by
  unfold PyDataMem_NEW; dsimp only; split <;> simp

@[simp] theorem PyDataMem_NEW_hook (sz : Nat) (s : AllocState) :
    (PyDataMem_NEW sz s).2.hook = s.hook := by
  unfold PyDataMem_NEW; dsimp only; split <;> simp

@[simp] theorem PyDataMem_NEW_ZEROED_datacache (n e : Nat) (s : AllocState) :
    (PyDataMem_NEW_ZEROED n e s).2.datacache = s.datacache := by
  unfold PyDataMem_NEW_ZEROED; dsimp only; split <;> [simp; (split <;> simp)]

@[simp] theorem PyDataMem_NEW_ZEROED_dimcache (n e : Nat) (s : AllocState) :
    (PyDataMem_NEW_ZEROED n e s).2.dimcache = s.dimcache := by
  unfold PyDataMem_NEW_ZEROED; dsimp only; split <;> [simp; (split <;> simp)]

@[simp] theorem PyDataMem_NEW_ZEROED_align (n e : Nat) (s : AllocState) :
    (PyDataMem_NEW_ZEROED n e s).2.align = s.align := by
  unfold PyDataMem_NEW_ZEROED; dsimp only; split <;> [simp; (split <;> simp)]

@[simp] theorem PyDataMem_NEW_ZEROED_alignMask (n e : Nat) (s : AllocState) :
    (PyDataMem_NEW_ZEROED n e s).2.alignMask = s.alignMask := by
  unfold PyDataMem_NEW_ZEROED; dsimp only; split <;> [simp; (split <;> simp)]

@[simp] theorem PyDataMem_NEW_ZEROED_hook (n e : Nat) (s : AllocState) :
    (PyDataMem_NEW_ZEROED n e s).2.hook = s.hook := by
  unfold PyDataMem_NEW_ZEROED; dsimp only; split <;> [simp; (split <;> simp)]

@[simp] theorem PyDataMem_FREE_datacache (p : Ptr) (s : AllocState) :
    (PyDataMem_FREE p s).datacache = s.datacache := by
  unfold PyDataMem_FREE; dsimp only; split <;> simp

@[simp] theorem PyDataMem_FREE_dimcache (p : Ptr) (s : AllocState) :
    (PyDataMem_FREE p s).dimcache = s.dimcache := by
  unfold PyDataMem_FREE; dsimp only; split <;> simp

@[simp] theorem PyDataMem_FREE_align (p : Ptr) (s : AllocState) :
    (PyDataMem_FREE p s).align = s.align := by
  unfold PyDataMem_FREE; dsimp only; split <;> simp

@[simp] theorem PyDataMem_FREE_alignMask (p : Ptr) (s : AllocState) :
    (PyDataMem_FREE p s).alignMask = s.alignMask := by
  unfold PyDataMem_FREE; dsimp only; split <;> simp

@[simp] theorem PyDataMem_FREE_hook (p : Ptr) (s : AllocState) :
    (PyDataMem_FREE p s).hook = s.hook := by
  unfold PyDataMem_FREE; dsimp only; split <;> simp

@[simp] theorem PyDataMem_FREE_mem (p : Ptr) (s : AllocState) :
    (PyDataMem_FREE p s).mem = s.mem := by
  unfold PyDataMem_FREE; dsimp only; split <;> simp

@[simp] theorem PyDataMem_RENEW_datacache (p sz : Nat) (s : AllocState) :
    (PyDataMem_RENEW p sz s).2.datacache = s.datacache := by
  unfold PyDataMem_RENEW; dsimp only; split <;> [simp; (split <;> [simp; (split <;> simp)])]

@[simp] theorem PyDataMem_RENEW_dimcache (p sz : Nat) (s : AllocState) :
    (PyDataMem_RENEW p sz s).2.dimcache = s.dimcache := by
  unfold PyDataMem_RENEW; dsimp only; split <;> [simp; (split <;> [simp; (split <;> simp)])]

@[simp] theorem PyDataMem_RENEW_align (p sz : Nat) (s : AllocState) :
    (PyDataMem_RENEW p sz s).2.align = s.align := by
  unfold PyDataMem_RENEW; dsimp only; split <;> [simp; (split <;> [simp; (split <;> simp)])]

@[simp] theorem PyDataMem_RENEW_alignMask (p sz : Nat) (s : AllocState) :
    (PyDataMem_RENEW p sz s).2.alignMask = s.alignMask := by
  unfold PyDataMem_RENEW; dsimp only; split <;> [simp; (split <;> [simp; (split <;> simp)])]

@[simp] theorem PyDataMem_RENEW_hook (p sz : Nat) (s : AllocState) :
    (PyDataMem_RENEW p sz s).2.hook = s.hook := by
  unfold PyDataMem_RENEW; dsimp only; split <;> [simp; (split <;> [simp; (split <;> simp)])]

/-- When a hook is registered, `PyDataMem_NEW` logs exactly one invocation,
`(NULL, result, size)`. -/
theorem PyDataMem_NEW_hookLog (sz : Nat) (s : AllocState) (h : s.hook = true) :
    (PyDataMem_NEW sz s).2.hookLog = (0, (PyDataMem_NEW sz s).1, sz) :: s.hookLog := by
  unfold PyDataMem_NEW
  dsimp only
  rw [callHook_hookLog_true]
  · simp only [List.cons.injEq, Prod.mk.injEq, true_and, and_true]
    split <;> simp
  · split <;> simp [h]

/-- When a hook is registered, `PyDataMem_NEW_ZEROED` logs exactly one
invocation, `(NULL, result, nelems * elsize)` (the wrapping product). -/
theorem PyDataMem_NEW_ZEROED_hookLog (n e : Nat) (s : AllocState) (h : s.hook = true) :
    (PyDataMem_NEW_ZEROED n e s).2.hookLog =
      (0, (PyDataMem_NEW_ZEROED n e s).1, n * e % 2 ^ 64) :: s.hookLog := by
  unfold PyDataMem_NEW_ZEROED
  dsimp only
  split
  · dsimp only
    rw [callHook_hookLog_true _ _ _ _ h]
  · dsimp only
    rw [callHook_hookLog_true]
    · simp only [List.cons.injEq, Prod.mk.injEq, true_and, and_true]
      split <;> simp
    · split <;> simp [h]

/-- When a hook is registered, `PyDataMem_FREE` logs exactly one invocation,
`(ptr, NULL, 0)`. -/
theorem PyDataMem_FREE_hookLog (p : Ptr) (s : AllocState) (h : s.hook = true) :
    (PyDataMem_FREE p s).hookLog = (p, 0, 0) :: s.hookLog := by
  unfold PyDataMem_FREE
  dsimp only
  rw [callHook_hookLog_true]
  · simp only [List.cons.injEq, Prod.mk.injEq, true_and, and_true]
    split <;> simp
  · split <;> simp [h]

/-- When a hook is registered, `PyDataMem_RENEW` logs exactly one
invocation, `(ptr, result, size)`. -/
theorem PyDataMem_RENEW_hookLog (p sz : Nat) (s : AllocState) (h : s.hook = true) :
    (PyDataMem_RENEW p sz s).2.hookLog =
      (p, (PyDataMem_RENEW p sz s).1, sz) :: s.hookLog := by
  unfold PyDataMem_RENEW
  dsimp only
  rw [callHook_hookLog_true]
  · simp only [List.cons.injEq, Prod.mk.injEq, true_and, and_true]
    split <;> [simp; (split <;> [simp; (split <;> simp)])]
  · split <;> [simp [h]; (split <;> [simp [h]; (split <;> simp [h])])]

/-! Branch equations of the cache layer. -/

theorem alloc_cache_hit (nelem esz msz : Nat) (c : CacheId)
    (alloc : Nat → AllocState → Ptr × AllocState) (s : AllocState)
    (h1 : nelem < msz) (h2 : 0 < (getCache s c nelem).available) :
    _npy_alloc_cache nelem esz msz c alloc s =
      ((getCache s c nelem).ptrs ((getCache s c nelem).available - 1),
        setCache s c (fun i => if i = nelem
          then { getCache s c nelem with
                 available := (getCache s c nelem).available - 1 }
          else getCache s c i)) := by
  unfold _npy_alloc_cache
  rw [if_pos ⟨h1, h2⟩]

theorem alloc_cache_miss (nelem esz msz : Nat) (c : CacheId)
    (alloc : Nat → AllocState → Ptr × AllocState) (s : AllocState)
    (h : ¬(nelem < msz ∧ 0 < (getCache s c nelem).available)) :
    _npy_alloc_cache nelem esz msz c alloc s = alloc (nelem * esz) s := by
  unfold _npy_alloc_cache
  rw [if_neg h]

theorem free_cache_push (p : Ptr) (nelem msz : Nat) (c : CacheId)
    (dealloc : Ptr → AllocState → AllocState) (s : AllocState)
    (hp : p ≠ 0) (h1 : nelem < msz) (h2 : (getCache s c nelem).available < NCACHE) :
    _npy_free_cache p nelem msz c dealloc s =
      setCache s c (fun i => if i = nelem
        then { available := (getCache s c nelem).available + 1,
               ptrs := fun j => if j = (getCache s c nelem).available then p
                 else (getCache s c nelem).ptrs j }
        else getCache s c i) := by
  unfold _npy_free_cache
  rw [if_pos ⟨hp, h1, h2⟩]

theorem free_cache_bypass (p : Ptr) (nelem msz : Nat) (c : CacheId)
    (dealloc : Ptr → AllocState → AllocState) (s : AllocState)
    (h : ¬(p ≠ 0 ∧ nelem < msz ∧ (getCache s c nelem).available < NCACHE)) :
    _npy_free_cache p nelem msz c dealloc s = dealloc p s := by
  unfold _npy_free_cache
  rw [if_neg h]

/-! Branch equations of `npy_datamem_set_align`. -/

theorem set_align_fail_small (a : Nat) (s : AllocState) (h : a < MIN_ALIGN) :
    npy_datamem_set_align a s = (-1, s) := by
  unfold npy_datamem_set_align
  rw [if_pos h]

theorem set_align_fail_notpow2 (a : Nat) (s : AllocState) (h1 : MIN_ALIGN ≤ a)
    (h2 : ¬∃ k, a = 2 ^ k) : npy_datamem_set_align a s = (-1, s) := by
  unfold npy_datamem_set_align
  rw [if_neg (Nat.not_lt.mpr h1), if_pos]
  intro he
  exact h2 ((xor_lor_pow2_iff a (by unfold MIN_ALIGN at h1; omega)).mp he)

theorem set_align_success (a : Nat) (s : AllocState) (h1 : MIN_ALIGN ≤ a)
    (h2 : ∃ k, a = 2 ^ k) :
    npy_datamem_set_align a s =
      (0, { (if s.align < a then _npy_clear_cache NBUCKETS .data PyDataMem_FREE s else s)
            with align := a, alignMask := a - 1 }) := by
  unfold npy_datamem_set_align
  rw [if_neg (Nat.not_lt.mpr h1), if_neg]
  intro hne
  exact hne ((xor_lor_pow2_iff a (by unfold MIN_ALIGN at h1; omega)).mpr h2)

/-! Preservation of the bucket-capacity invariant. -/

theorem CapInv_congr {s t : AllocState} (h1 : t.datacache = s.datacache)
    (h2 : t.dimcache = s.dimcache) (h : CapInv s) : CapInv t := by
  intro i
  rw [h1, h2]
  exact h i

theorem CapInv_alloc_cache (nelem esz msz : Nat) (c : CacheId)
    (alloc : Nat → AllocState → Ptr × AllocState) (s : AllocState)
    (halloc : ∀ n, CapInv (alloc n s).2) (h : CapInv s) :
    CapInv (_npy_alloc_cache nelem esz msz c alloc s).2 := by
  by_cases hc : nelem < msz ∧ 0 < (getCache s c nelem).available
  · rw [alloc_cache_hit nelem esz msz c alloc s hc.1 hc.2]
    intro i
    cases c
    · refine ⟨?_, (h i).2⟩
      show ((fun i => if i = nelem then _ else _) i : Bucket).available ≤ NCACHE
      dsimp only
      split
      · exact le_trans (Nat.sub_le _ _) (h nelem).1
      · exact (h i).1
    · refine ⟨(h i).1, ?_⟩
      show ((fun i => if i = nelem then _ else _) i : Bucket).available ≤ NCACHE
      dsimp only
      split
      · exact le_trans (Nat.sub_le _ _) (h nelem).2
      · exact (h i).2
  · rw [alloc_cache_miss nelem esz msz c alloc s hc]
    exact halloc _

theorem CapInv_free_cache (p : Ptr) (nelem msz : Nat) (c : CacheId)
    (dealloc : Ptr → AllocState → AllocState) (s : AllocState)
    (hdealloc : CapInv (dealloc p s)) (h : CapInv s) :
    CapInv (_npy_free_cache p nelem msz c dealloc s) := by
  by_cases hc : p ≠ 0 ∧ nelem < msz ∧ (getCache s c nelem).available < NCACHE
  · rw [free_cache_push p nelem msz c dealloc s hc.1 hc.2.1 hc.2.2]
    intro i
    cases c
    · refine ⟨?_, (h i).2⟩
      show ((fun i => if i = nelem then _ else _) i : Bucket).available ≤ NCACHE
      dsimp only
      split
      · exact hc.2.2
      · exact (h i).1
    · refine ⟨(h i).1, ?_⟩
      show ((fun i => if i = nelem then _ else _) i : Bucket).available ≤ NCACHE
      dsimp only
      split
      · exact hc.2.2
      · exact (h i).2
  · rw [free_cache_bypass p nelem msz c dealloc s hc]
    exact hdealloc

theorem CapInv_clear_data (msz : Nat) (s : AllocState) (h : CapInv s) :
    CapInv (_npy_clear_cache msz .data PyDataMem_FREE s) := by
  intro i
  constructor
  · by_cases hi : i < msz
    · have := clear_cache_available msz .data PyDataMem_FREE
        (fun p t => PyDataMem_FREE_datacache p t) s i hi
      rw [show getCache (_npy_clear_cache msz CacheId.data PyDataMem_FREE s) CacheId.data =
        (_npy_clear_cache msz CacheId.data PyDataMem_FREE s).datacache from rfl] at this
      rw [this]
      exact Nat.zero_le _
    · have := clear_cache_untouched msz .data PyDataMem_FREE
        (fun p t => PyDataMem_FREE_datacache p t) s i (Nat.not_lt.mp hi)
      rw [show getCache (_npy_clear_cache msz CacheId.data PyDataMem_FREE s) CacheId.data =
        (_npy_clear_cache msz CacheId.data PyDataMem_FREE s).datacache from rfl] at this
      rw [this]
      exact (h i).1
  · have := clear_cache_preserve (fun u => u.dimcache) msz .data PyDataMem_FREE
      (fun p t => PyDataMem_FREE_dimcache p t) (fun t f => rfl) s
    rw [this]
    exact (h i).2

theorem CapInv_applyOp (s : AllocState) (o : Op) (h : CapInv s) :
    CapInv (applyOp s o) := by
  cases o with
  | allocData sz =>
    exact CapInv_alloc_cache sz 1 NBUCKETS .data PyDataMem_NEW s
      (fun n => CapInv_congr (PyDataMem_NEW_datacache n s) (PyDataMem_NEW_dimcache n s) h) h
  | allocDataZero sz =>
    show CapInv (npy_alloc_cache_zero sz s).2
    unfold npy_alloc_cache_zero
    dsimp only
    split
    · have hbase : CapInv (_npy_alloc_cache sz 1 NBUCKETS .data PyDataMem_NEW s).2 :=
        CapInv_alloc_cache sz 1 NBUCKETS .data PyDataMem_NEW s
          (fun n => CapInv_congr (PyDataMem_NEW_datacache n s) (PyDataMem_NEW_dimcache n s) h) h
      split
      · exact CapInv_congr rfl rfl hbase
      · exact hbase
    · exact CapInv_congr (PyDataMem_NEW_ZEROED_datacache sz 1 s)
        (PyDataMem_NEW_ZEROED_dimcache sz 1 s) h
  | freeData p sz =>
    exact CapInv_free_cache p sz NBUCKETS .data PyDataMem_FREE s
      (CapInv_congr (PyDataMem_FREE_datacache p s) (PyDataMem_FREE_dimcache p s) h) h
  | allocDim sz =>
    show CapInv (npy_alloc_cache_dim sz s).2
    unfold npy_alloc_cache_dim
    dsimp only
    exact CapInv_alloc_cache _ PTRSIZE NBUCKETS_DIM .dim PyArray_malloc s
      (fun n => CapInv_congr (by unfold PyArray_malloc; simp) (by unfold PyArray_malloc; simp) h) h
  | freeDim p sz =>
    show CapInv (npy_free_cache_dim p sz s)
    unfold npy_free_cache_dim
    dsimp only
    exact CapInv_free_cache p _ NBUCKETS_DIM .dim PyArray_free s
      (CapInv_congr (by unfold PyArray_free; simp) (by unfold PyArray_free; simp) h) h
  | memNew sz =>
    exact CapInv_congr (PyDataMem_NEW_datacache sz s) (PyDataMem_NEW_dimcache sz s) h
  | memNewZeroed n e =>
    exact CapInv_congr (PyDataMem_NEW_ZEROED_datacache n e s)
      (PyDataMem_NEW_ZEROED_dimcache n e s) h
  | memFree p =>
    exact CapInv_congr (PyDataMem_FREE_datacache p s) (PyDataMem_FREE_dimcache p s) h
  | memRenew p sz =>
    exact CapInv_congr (PyDataMem_RENEW_datacache p sz s) (PyDataMem_RENEW_dimcache p sz s) h
  | setAlign a =>
    show CapInv (npy_datamem_set_align a s).2
    by_cases h1 : a < MIN_ALIGN
    · rw [set_align_fail_small a s h1]
      exact h
    · by_cases h2 : ∃ k, a = 2 ^ k
      · rw [set_align_success a s (Nat.not_lt.mp h1) h2]
        by_cases h3 : s.align < a
        · rw [if_pos h3]
          intro i
          exact CapInv_clear_data NBUCKETS s h i
        · rw [if_neg h3]
          intro i
          exact h i
      · rw [set_align_fail_notpow2 a s (Nat.not_lt.mp h1) h2]
        exact h
  | setHook b =>
    intro i
    exact h i

theorem CapInv_runOps (s : AllocState) (l : List Op) (h : CapInv s) :
    CapInv (runOps s l) := by
  unfold runOps
  induction l generalizing s with
  | nil => exact h
  | cons o rest ih =>
    rw [List.foldl_cons]
    exact ih _ (CapInv_applyOp s o h)

/-! Identification of the scenario states (the `set_align` calls they start
from raise the alignment over an empty data cache, so the purge is a no-op
and the state is the literal record below). -/

@[simp] theorem getCache_data (s : AllocState) : getCache s .data = s.datacache := rfl

@[simp] theorem getCache_dim (s : AllocState) : getCache s .dim = s.dimcache := rfl

theorem initState_align (f : List Ptr) (h : Bool) : (initState f h).align = MIN_ALIGN := rfl

theorem renewS0_eq :
    renewS0 = { initState [16, 96] false with align := 32, alignMask := 31 } := by
  unfold renewS0
  rw [set_align_success 32 _ (by unfold MIN_ALIGN; omega) ⟨5, rfl⟩]
  rw [if_pos (by rw [initState_align]; unfold MIN_ALIGN; omega)]
  rw [clear_cache_of_empty NBUCKETS .data PyDataMem_FREE (initState [16, 96] false)
    (fun i => rfl)]

theorem dimAlignS0_eq :
    dimAlignS0 = { initState [16] false with align := 64, alignMask := 63 } := by
  unfold dimAlignS0
  rw [set_align_success 64 _ (by unfold MIN_ALIGN; omega) ⟨6, rfl⟩]
  rw [if_pos (by rw [initState_align]; unfold MIN_ALIGN; omega)]
  rw [clear_cache_of_empty NBUCKETS .data PyDataMem_FREE (initState [16] false)
    (fun i => rfl)]

theorem raiseS1_datacache : raiseS1.datacache = raiseS0.datacache := by
  unfold raiseS1 npy_alloc_cache
  rw [alloc_cache_miss _ _ _ _ _ _ (by rw [getCache_data]; exact fun hc => absurd hc.2 (by decide))]
  rw [PyDataMem_NEW_datacache]

theorem raiseS1_align : raiseS1.align = 16 := by
  unfold raiseS1 npy_alloc_cache
  rw [alloc_cache_miss _ _ _ _ _ _ (by rw [getCache_data]; exact fun hc => absurd hc.2 (by decide))]
  rw [PyDataMem_NEW_align]
  rfl

theorem raiseS2_eq : raiseS2 = { raiseS1 with align := 64, alignMask := 63 } := by
  unfold raiseS2
  rw [set_align_success 64 _ (by unfold MIN_ALIGN; omega) ⟨6, rfl⟩]
  rw [if_pos (by rw [raiseS1_align]; omega)]
  rw [clear_cache_of_empty NBUCKETS .data PyDataMem_FREE raiseS1
    (fun i => by rw [getCache_data, raiseS1_datacache]; rfl)]

/-- Releasing a non-null block into a non-full bucket and then acquiring the
same size class pops exactly that block (LIFO) and logs nothing. -/
theorem free_then_alloc (p : Ptr) (n msz esz : Nat) (c : CacheId)
    (alloc : Nat → AllocState → Ptr × AllocState)
    (dealloc : Ptr → AllocState → AllocState) (s : AllocState)
    (hp : p ≠ 0) (hn : n < msz) (hav : (getCache s c n).available < NCACHE) :
    (_npy_alloc_cache n esz msz c alloc (_npy_free_cache p n msz c dealloc s)).1 = p ∧
    (_npy_alloc_cache n esz msz c alloc
      (_npy_free_cache p n msz c dealloc s)).2.hookLog = s.hookLog := by
  rw [free_cache_push p n msz c dealloc s hp hn hav]
  have hget : getCache (setCache s c (fun i => if i = n
      then { available := (getCache s c n).available + 1,
             ptrs := fun j => if j = (getCache s c n).available then p
               else (getCache s c n).ptrs j }
      else getCache s c i)) c n =
      { available := (getCache s c n).available + 1,
        ptrs := fun j => if j = (getCache s c n).available then p
          else (getCache s c n).ptrs j } := by
    rw [getCache_setCache]
    exact if_pos rfl
  rw [alloc_cache_hit n esz msz c alloc _ hn (by rw [hget]; exact Nat.succ_pos _)]
  constructor
  · rw [hget]
    dsimp only
    rw [Nat.add_sub_cancel]
    exact if_pos rfl
  · rw [setCache_hookLog, setCache_hookLog]

/-- C1: cache round-trip reuse.  For every size class `n < NBUCKETS`,
starting from any state satisfying the bucket-capacity invariant at class
`n`, `allocate_data n` followed by `free_data` of the returned non-null
address at the same class followed by `allocate_data n` returns the
identical address: the free pushes the block and the second allocate pops
the most recently pushed (LIFO) cached block. -/
theorem claim_C1_cache_roundtrip (s : AllocState) (n : Nat) (hn : n < NBUCKETS)
    (hcap : (s.datacache n).available ≤ NCACHE)
    (hp : (npy_alloc_cache n s).1 ≠ 0) :
    (npy_alloc_cache n
      (npy_free_cache (npy_alloc_cache n s).1 n (npy_alloc_cache n s).2)).1
      = (npy_alloc_cache n s).1 := by
  unfold npy_alloc_cache at hp ⊢
  unfold npy_free_cache
  by_cases hhit : 0 < (getCache s .data n).available
  · rw [alloc_cache_hit n 1 NBUCKETS .data PyDataMem_NEW s hn hhit] at hp ⊢
    dsimp only at hp ⊢
    refine (free_then_alloc _ n NBUCKETS 1 .data PyDataMem_NEW PyDataMem_FREE _
      hp hn ?_).1
    rw [getCache_setCache]
    simp only [eq_self_iff_true, if_true, getCache_data]
    rw [getCache_data] at hhit
    unfold NCACHE at hcap ⊢
    omega
  · rw [alloc_cache_miss n 1 NBUCKETS .data PyDataMem_NEW s
      (fun hc => hhit hc.2)] at hp ⊢
    refine (free_then_alloc _ n NBUCKETS 1 .data PyDataMem_NEW PyDataMem_FREE _
      hp hn ?_).1
    rw [getCache_data, PyDataMem_NEW_datacache]
    rw [getCache_data] at hhit
    unfold NCACHE
    omega

/-- Witness for C1 at a concrete input: a fresh start, a 100-byte
allocation served by the system allocator at base 16 (user address 32). -/
theorem claim_C1_cache_roundtrip_witness :
    ((100 : Nat) < NBUCKETS ∧
      ((initState [16] false).datacache 100).available ≤ NCACHE ∧
      (npy_alloc_cache 100 (initState [16] false)).1 ≠ 0) ∧
    (npy_alloc_cache 100
      (npy_free_cache (npy_alloc_cache 100 (initState [16] false)).1 100
        (npy_alloc_cache 100 (initState [16] false)).2)).1
      = (npy_alloc_cache 100 (initState [16] false)).1 :=
  ⟨⟨by decide, by decide, by decide⟩,
    claim_C1_cache_roundtrip (initState [16] false) 100 (by decide) (by decide) (by decide)⟩

/-- C9 counterexample: the claim says a null release produces no observable
effect and in particular never invokes the event hook; but with a hook
registered, `npy_free_cache(NULL, 5)` falls through to `PyDataMem_FREE(NULL)`,
which fires the hook with `(NULL, NULL, 0)`. -/
theorem claim_C9_counterexample :
    (initState [] true).hook = true ∧
    (initState [] true).hookLog = [] ∧
    (npy_free_cache 0 5 (initState [] true)).hookLog = [(0, 0, 0)] ∧
    ([(0, 0, 0)] : List (Ptr × Ptr × Nat)) ≠ [] := by
  refine ⟨rfl, rfl, by decide, by decide⟩

/-- C9 amended: a null release changes no bucket of either cache, releases
nothing to the system allocator and leaves memory, heap and oracle
untouched — but it is forwarded to the underlying deallocator
`PyDataMem_FREE`, which invokes the event hook with `(NULL, NULL, 0)`
whenever one is registered (and does nothing at all otherwise). -/
theorem claim_C9_amended (n : Nat) (s : AllocState) :
    npy_free_cache 0 n s = PyDataMem_FREE 0 s ∧
    PyDataMem_FREE 0 s = callHook 0 0 0 s ∧
    (npy_free_cache 0 n s).datacache = s.datacache ∧
    (npy_free_cache 0 n s).dimcache = s.dimcache ∧
    (npy_free_cache 0 n s).blocks = s.blocks ∧
    (npy_free_cache 0 n s).mem = s.mem ∧
    (npy_free_cache 0 n s).fresh = s.fresh ∧
    (s.hook = true → (npy_free_cache 0 n s).hookLog = (0, 0, 0) :: s.hookLog) ∧
    (s.hook = false → npy_free_cache 0 n s = s) := by
  have h1 : npy_free_cache 0 n s = PyDataMem_FREE 0 s := by
    unfold npy_free_cache
    exact free_cache_bypass 0 n NBUCKETS .data PyDataMem_FREE s (fun hc => hc.1 rfl)
  have h2 : PyDataMem_FREE 0 s = callHook 0 0 0 s := by
    unfold PyDataMem_FREE
    dsimp only
    rw [if_neg (fun hc => hc rfl)]
  refine ⟨h1, h2, ?_, ?_, ?_, ?_, ?_, ?_, ?_⟩ <;> rw [h1, h2]
  · exact callHook_datacache 0 0 0 s
  · exact callHook_dimcache 0 0 0 s
  · exact callHook_blocks 0 0 0 s
  · exact callHook_mem 0 0 0 s
  · exact callHook_fresh 0 0 0 s
  · intro hh
    exact callHook_hookLog_true 0 0 0 s hh
  · intro hh
    unfold callHook
    rw [hh]
    rfl

/-- Witness for C9 amended at a concrete input. -/
theorem claim_C9_amended_witness :
    ((initState [16] true).hook = true ∧
      (npy_free_cache 0 5 (initState [16] true)).hookLog
        = (0, 0, 0) :: (initState [16] true).hookLog) ∧
    npy_free_cache 0 5 (initState [16] true) = PyDataMem_FREE 0 (initState [16] true) :=
  ⟨⟨rfl, (claim_C9_amended 5 (initState [16] true)).2.2.2.2.2.2.2.1 rfl⟩,
    (claim_C9_amended 5 (initState [16] true)).1⟩

/-- C7: `set_alignment` validation and atomicity.  A request that is below
`MIN_ALIGN` (16) or not a power of two returns the distinct error code `-1`
(not the null-pointer OOM signal) and leaves the whole state — stored
alignment, derived mask, hence `get_alignment`, and both caches — exactly
as it was; a power-of-two request `≥ 16` returns `0` and afterwards
`get_alignment` reports the new value (with the matching mask installed). -/
theorem claim_C7_set_align_validation (a : Nat) (s : AllocState) :
    (¬(MIN_ALIGN ≤ a ∧ ∃ k, a = 2 ^ k) →
      npy_datamem_set_align a s = (-1, s)) ∧
    ((MIN_ALIGN ≤ a ∧ ∃ k, a = 2 ^ k) →
      (npy_datamem_set_align a s).1 = 0 ∧
      npy_datamem_get_align (npy_datamem_set_align a s).2 = a ∧
      (npy_datamem_set_align a s).2.alignMask = a - 1) := by
  constructor
  · intro h
    by_cases h1 : a < MIN_ALIGN
    · exact set_align_fail_small a s h1
    · exact set_align_fail_notpow2 a s (Nat.not_lt.mp h1)
        (fun hk => h ⟨Nat.not_lt.mp h1, hk⟩)
  · rintro ⟨h1, h2⟩
    rw [set_align_success a s h1 h2]
    exact ⟨rfl, rfl, rfl⟩

/-- Witness for C7 at concrete inputs: 24 is rejected with the state
untouched, 16 is accepted and reported back by `get_alignment`. -/
theorem claim_C7_set_align_validation_witness :
    (¬(MIN_ALIGN ≤ 24 ∧ ∃ k, (24 : Nat) = 2 ^ k) ∧
      npy_datamem_set_align 24 (initState [] false) = (-1, initState [] false)) ∧
    ((MIN_ALIGN ≤ 16 ∧ ∃ k, (16 : Nat) = 2 ^ k) ∧
      (npy_datamem_set_align 16 (initState [] false)).1 = 0 ∧
      npy_datamem_get_align (npy_datamem_set_align 16 (initState [] false)).2 = 16 ∧
      (npy_datamem_set_align 16 (initState [] false)).2.alignMask = 16 - 1) := by
  have h24 : ¬(MIN_ALIGN ≤ 24 ∧ ∃ k, (24 : Nat) = 2 ^ k) := by
    rintro ⟨-, k, hk⟩
    have hl : (2 : Nat) ^ 4 < 2 ^ k := by rw [← hk]; norm_num
    have hr : (2 : Nat) ^ k < 2 ^ 5 := by rw [← hk]; norm_num
    have h1 := (Nat.pow_lt_pow_iff_right (by norm_num : (1 : Nat) < 2)).mp hl
    have h2 := (Nat.pow_lt_pow_iff_right (by norm_num : (1 : Nat) < 2)).mp hr
    omega
  have h16 : MIN_ALIGN ≤ 16 ∧ ∃ k, (16 : Nat) = 2 ^ k := ⟨le_refl _, 4, by norm_num⟩
  exact ⟨⟨h24, (claim_C7_set_align_validation 24 (initState [] false)).1 h24⟩,
    ⟨h16, (claim_C7_set_align_validation 16 (initState [] false)).2 h16⟩⟩

/-- C10: aligned-allocation layout safety.  For the current alignment (a
power of two `≥ 16`, with its matching mask) and any base allocation of
`get_aligned_size size` bytes at a non-null `base` (below `2^64`, with the
over-allocated size not overflowing), the user address `align_pointer`
computes satisfies `base + PTRSIZE ≤ user` and
`user + size ≤ base + get_aligned_size size` — so the hidden header word at
`user - PTRSIZE` and the whole `size`-byte user region lie inside the
allocation — the user address is aligned, and `get_original_pointer`
recovers exactly `base`. -/
theorem claim_C10_layout_safety (s : AllocState) (size base : Nat)
    (hmask : s.alignMask + 1 = s.align) (hpow : ∃ k, s.align = 2 ^ k)
    (hmin : MIN_ALIGN ≤ s.align) (hb : base ≠ 0) (hb64 : base < 2 ^ 64)
    (hnoovf : base + get_aligned_size s size < 2 ^ 64) :
    base + PTRSIZE ≤ (align_pointer s base).1 ∧
    (align_pointer s base).1 + size ≤ base + get_aligned_size s size ∧
    (align_pointer s base).1 % s.align = 0 ∧
    get_original_pointer (align_pointer s base).2 (align_pointer s base).1 = base := by
  have hfst := align_pointer_fst s base
  have hge := align_down_ge (base + PTRSIZE + s.alignMask) s.alignMask
  rw [Nat.add_sub_cancel] at hge
  have hle := align_down_le (base + PTRSIZE + s.alignMask) s.alignMask
  refine ⟨?_, ?_, ?_, ?_⟩
  · rw [hfst]
    exact hge
  · rw [hfst]
    have h2 : get_aligned_size s size = size + PTRSIZE + s.alignMask := rfl
    rw [h2]
    calc align_down (base + PTRSIZE + s.alignMask) s.alignMask + size
        ≤ base + PTRSIZE + s.alignMask + size := Nat.add_le_add_right hle size
      _ = base + (size + PTRSIZE + s.alignMask) := by ring
  · rw [hfst]
    have := align_down_mod (base + PTRSIZE + s.alignMask) s.alignMask
    rw [hmask] at this
    exact this
  · unfold get_original_pointer
    rw [align_pointer_snd_mem]
    exact readWord_writeWord s.mem _ base hb64

/-- Witness for C10 at a concrete input: alignment 16, base 16, size 100. -/
theorem claim_C10_layout_safety_witness :
    ((initState [] false).alignMask + 1 = (initState [] false).align ∧
      (∃ k, (initState [] false).align = 2 ^ k) ∧
      MIN_ALIGN ≤ (initState [] false).align ∧
      (16 : Nat) ≠ 0 ∧ (16 : Nat) < 2 ^ 64 ∧
      16 + get_aligned_size (initState [] false) 100 < 2 ^ 64) ∧
    (16 + PTRSIZE ≤ (align_pointer (initState [] false) 16).1 ∧
      (align_pointer (initState [] false) 16).1 + 100
        ≤ 16 + get_aligned_size (initState [] false) 100 ∧
      (align_pointer (initState [] false) 16).1 % (initState [] false).align = 0 ∧
      get_original_pointer (align_pointer (initState [] false) 16).2
        (align_pointer (initState [] false) 16).1 = 16) :=
  ⟨⟨rfl, ⟨4, rfl⟩, by decide, by decide, by decide, by decide⟩,
    claim_C10_layout_safety (initState [] false) 100 16 rfl ⟨4, rfl⟩
      (by decide) (by decide) (by decide) (by decide)⟩

/-- C4 counterexample: with the alignment legitimately configured to 64 (a
power of two `≥ 16`, set through `npy_datamem_set_align` from a fresh
start), `allocate_dims` returns the raw `PyArray_malloc` address 16, and
`16 mod 64 ≠ 0` — the claimed alignment guarantee fails for the dimension
allocator. -/
theorem claim_C4_counterexample :
    npy_datamem_get_align dimAlignS0 = 64 ∧
    (∃ k, (64 : Nat) = 2 ^ k) ∧ MIN_ALIGN ≤ 64 ∧
    (npy_alloc_cache_dim 2 dimAlignS0).1 ≠ 0 ∧
    ¬((npy_alloc_cache_dim 2 dimAlignS0).1 % npy_datamem_get_align dimAlignS0 = 0) := by
  rw [dimAlignS0_eq]
  exact ⟨rfl, ⟨6, by norm_num⟩, by decide, by decide, by decide⟩

/-- C4 amended: the configured-alignment guarantee holds for the data path
only — every non-null address `PyDataMem_NEW` returns is aligned to the
current alignment, and a data-cache allocation returns an aligned address
provided every pointer cached in the data cache is aligned (true as long as
nothing aligned under a smaller previous alignment was freed into the
cache after a raise); `allocate_dims` carries no such guarantee, since it
allocates through the raw `PyArray_malloc`. -/
theorem claim_C4_amended (s : AllocState) (hmask : s.alignMask + 1 = s.align)
    (hpow : ∃ k, s.align = 2 ^ k) (hmin : MIN_ALIGN ≤ s.align)
    (hcache : ∀ i j, j < (s.datacache i).available →
      (s.datacache i).ptrs j % s.align = 0) :
    (∀ sz, (PyDataMem_NEW sz s).1 ≠ 0 → (PyDataMem_NEW sz s).1 % s.align = 0) ∧
    (∀ n, (npy_alloc_cache n s).1 ≠ 0 → (npy_alloc_cache n s).1 % s.align = 0) := by
  have hnew : ∀ sz, (PyDataMem_NEW sz s).1 ≠ 0 →
      (PyDataMem_NEW sz s).1 % s.align = 0 := by
    intro sz hp
    unfold PyDataMem_NEW at hp ⊢
    dsimp only at hp ⊢
    by_cases h0 : (sysMalloc (get_aligned_size s sz) s).1 = 0
    · rw [if_pos h0] at hp
      exact absurd rfl hp
    · rw [if_neg h0]
      rw [align_pointer_fst, sysMalloc_alignMask]
      have := align_down_mod
        ((sysMalloc (get_aligned_size s sz) s).1 + PTRSIZE + s.alignMask) s.alignMask
      rw [hmask] at this
      exact this
  refine ⟨hnew, ?_⟩
  intro n hp
  unfold npy_alloc_cache at hp ⊢
  by_cases hc : n < NBUCKETS ∧ 0 < (getCache s .data n).available
  · rw [alloc_cache_hit n 1 NBUCKETS .data PyDataMem_NEW s hc.1 hc.2] at hp ⊢
    dsimp only at hp ⊢
    simp only [getCache_data] at hp ⊢
    refine hcache n _ ?_
    have := hc.2
    rw [getCache_data] at this
    omega
  · rw [alloc_cache_miss n 1 NBUCKETS .data PyDataMem_NEW s hc] at hp ⊢
    exact hnew _ hp

/-- Witness for C4 amended: a fresh start (alignment 16, empty cache), the
data allocation of 500 bytes is served at the aligned address 32. -/
theorem claim_C4_amended_witness :
    ((initState [16] false).alignMask + 1 = (initState [16] false).align ∧
      (∃ k, (initState [16] false).align = 2 ^ k) ∧
      MIN_ALIGN ≤ (initState [16] false).align) ∧
    ((npy_alloc_cache 500 (initState [16] false)).1 ≠ 0 →
      (npy_alloc_cache 500 (initState [16] false)).1 % (initState [16] false).align = 0) :=
  ⟨⟨rfl, ⟨4, rfl⟩, by decide⟩,
    (claim_C4_amended (initState [16] false) rfl ⟨4, rfl⟩ (by decide)
      (fun i j hj => absurd hj (Nat.not_lt_zero j))).2 500⟩

/-- C2: event-hook invocation contract.  With a hook registered, each of
`PyDataMem_NEW`, `PyDataMem_NEW_ZEROED`, `PyDataMem_FREE` and
`PyDataMem_RENEW` logs exactly one invocation with the documented
arguments; a cache-hit allocate and a free into a non-full bucket log
nothing.  In the concrete scenario: allocating 500 bytes at an empty bucket
is a miss and logs `(none, addr, 500)` once; freeing it logs nothing; and
allocating 500 bytes again is a hit that returns the same address and logs
nothing. -/
theorem claim_C2_event_hook (s : AllocState) (hh : s.hook = true)
    (hmiss : (s.datacache 500).available = 0)
    (hp : (npy_alloc_cache 500 s).1 ≠ 0) :
    (∀ sz t, t.hook = true → (PyDataMem_NEW sz t).2.hookLog
      = (0, (PyDataMem_NEW sz t).1, sz) :: t.hookLog) ∧
    (∀ n e t, t.hook = true → (PyDataMem_NEW_ZEROED n e t).2.hookLog
      = (0, (PyDataMem_NEW_ZEROED n e t).1, n * e % 2 ^ 64) :: t.hookLog) ∧
    (∀ p t, t.hook = true → (PyDataMem_FREE p t).hookLog = (p, 0, 0) :: t.hookLog) ∧
    (∀ p sz t, t.hook = true → (PyDataMem_RENEW p sz t).2.hookLog
      = (p, (PyDataMem_RENEW p sz t).1, sz) :: t.hookLog) ∧
    (∀ n t, n < NBUCKETS → 0 < (t.datacache n).available →
      (npy_alloc_cache n t).2.hookLog = t.hookLog) ∧
    (∀ p n t, p ≠ 0 → n < NBUCKETS → (t.datacache n).available < NCACHE →
      (npy_free_cache p n t).hookLog = t.hookLog) ∧
    ((npy_alloc_cache 500 s).2.hookLog
        = (0, (npy_alloc_cache 500 s).1, 500) :: s.hookLog ∧
      (npy_free_cache (npy_alloc_cache 500 s).1 500 (npy_alloc_cache 500 s).2).hookLog
        = (0, (npy_alloc_cache 500 s).1, 500) :: s.hookLog ∧
      (npy_alloc_cache 500 (npy_free_cache (npy_alloc_cache 500 s).1 500
        (npy_alloc_cache 500 s).2)).1 = (npy_alloc_cache 500 s).1 ∧
      (npy_alloc_cache 500 (npy_free_cache (npy_alloc_cache 500 s).1 500
        (npy_alloc_cache 500 s).2)).2.hookLog
        = (0, (npy_alloc_cache 500 s).1, 500) :: s.hookLog) := by
  have hhit0 : ∀ n t, n < NBUCKETS → 0 < (t.datacache n).available →
      (npy_alloc_cache n t).2.hookLog = t.hookLog := by
    intro n t hn hav
    unfold npy_alloc_cache
    rw [alloc_cache_hit n 1 NBUCKETS .data PyDataMem_NEW t hn
      (by rw [getCache_data]; exact hav)]
    dsimp only
    rw [setCache_hookLog]
  have hpush0 : ∀ p n t, p ≠ 0 → n < NBUCKETS → (t.datacache n).available < NCACHE →
      (npy_free_cache p n t).hookLog = t.hookLog := by
    intro p n t hp0 hn hav
    unfold npy_free_cache
    rw [free_cache_push p n NBUCKETS .data PyDataMem_FREE t hp0 hn
      (by rw [getCache_data]; exact hav)]
    rw [setCache_hookLog]
  have hmiss500 : ¬(500 < NBUCKETS ∧ 0 < (getCache s .data 500).available) := by
    rintro ⟨-, hpos⟩
    rw [getCache_data, hmiss] at hpos
    exact absurd hpos (lt_irrefl 0)
  have halloc_eq : npy_alloc_cache 500 s = PyDataMem_NEW (500 * 1) s := by
    unfold npy_alloc_cache
    rw [alloc_cache_miss 500 1 NBUCKETS .data PyDataMem_NEW s hmiss500]
  have hs1log : (npy_alloc_cache 500 s).2.hookLog
      = (0, (npy_alloc_cache 500 s).1, 500) :: s.hookLog := by
    rw [halloc_eq]
    exact PyDataMem_NEW_hookLog (500 * 1) s hh
  have havail1 : ((npy_alloc_cache 500 s).2.datacache 500).available < NCACHE := by
    rw [halloc_eq, PyDataMem_NEW_datacache, hmiss]
    unfold NCACHE
    omega
  have hfree_log : (npy_free_cache (npy_alloc_cache 500 s).1 500
      (npy_alloc_cache 500 s).2).hookLog
      = (0, (npy_alloc_cache 500 s).1, 500) :: s.hookLog := by
    rw [hpush0 _ 500 _ hp (by unfold NBUCKETS; omega) havail1]
    exact hs1log
  have hfta : (npy_alloc_cache 500 (npy_free_cache (npy_alloc_cache 500 s).1 500
        (npy_alloc_cache 500 s).2)).1 = (npy_alloc_cache 500 s).1 ∧
      (npy_alloc_cache 500 (npy_free_cache (npy_alloc_cache 500 s).1 500
        (npy_alloc_cache 500 s).2)).2.hookLog = (npy_alloc_cache 500 s).2.hookLog :=
    free_then_alloc (npy_alloc_cache 500 s).1 500 NBUCKETS 1 .data
      PyDataMem_NEW PyDataMem_FREE (npy_alloc_cache 500 s).2 hp
      (by unfold NBUCKETS; omega) (by rw [getCache_data]; exact havail1)
  refine ⟨fun sz t ht => PyDataMem_NEW_hookLog sz t ht,
    fun n e t ht => PyDataMem_NEW_ZEROED_hookLog n e t ht,
    fun p t ht => PyDataMem_FREE_hookLog p t ht,
    fun p sz t ht => PyDataMem_RENEW_hookLog p sz t ht,
    hhit0, hpush0, hs1log, hfree_log, hfta.1, ?_⟩
  rw [hfta.2]
  exact hs1log

/-- Witness for C2 at a concrete input: fresh start with a hook registered,
the 500-byte allocation served at address 32. -/
theorem claim_C2_event_hook_witness :
    (hookS0.hook = true ∧ (hookS0.datacache 500).available = 0 ∧
      (npy_alloc_cache 500 hookS0).1 ≠ 0) ∧
    ((npy_alloc_cache 500 hookS0).2.hookLog
        = (0, (npy_alloc_cache 500 hookS0).1, 500) :: hookS0.hookLog ∧
      (npy_free_cache (npy_alloc_cache 500 hookS0).1 500
        (npy_alloc_cache 500 hookS0).2).hookLog
        = (0, (npy_alloc_cache 500 hookS0).1, 500) :: hookS0.hookLog ∧
      (npy_alloc_cache 500 (npy_free_cache (npy_alloc_cache 500 hookS0).1 500
        (npy_alloc_cache 500 hookS0).2)).1 = (npy_alloc_cache 500 hookS0).1 ∧
      (npy_alloc_cache 500 (npy_free_cache (npy_alloc_cache 500 hookS0).1 500
        (npy_alloc_cache 500 hookS0).2)).2.hookLog
        = (0, (npy_alloc_cache 500 hookS0).1, 500) :: hookS0.hookLog) :=
  ⟨⟨rfl, rfl, by decide⟩,
    (claim_C2_event_hook hookS0 rfl rfl (by decide)).2.2.2.2.2.2⟩

/-- C3: bucket-capacity invariant.  `available ≤ NCACHE` (7) holds for
every bucket of both caches in every state reachable by any sequence of
public operations from a state satisfying it; and once a bucket holds
`NCACHE` entries, a further free of that size class bypasses the cache and
is handed to the underlying deallocator (`PyDataMem_FREE` for data — which
fires the event hook — and `PyArray_free` for dimensions). -/
theorem claim_C3_bucket_capacity (s : AllocState) (l : List Op) (h : CapInv s) :
    CapInv (runOps s l) ∧
    (∀ p n t, n < NBUCKETS → (t.datacache n).available = NCACHE →
      npy_free_cache p n t = PyDataMem_FREE p t) ∧
    (∀ p n t, 2 ≤ n → n < NBUCKETS_DIM → (t.dimcache n).available = NCACHE →
      npy_free_cache_dim p n t = PyArray_free p t) := by
  refine ⟨CapInv_runOps s l h, ?_, ?_⟩
  · intro p n t hn hfull
    unfold npy_free_cache
    refine free_cache_bypass p n NBUCKETS .data PyDataMem_FREE t ?_
    rintro ⟨-, -, hlt⟩
    rw [getCache_data, hfull] at hlt
    exact absurd hlt (lt_irrefl _)
  · intro p n t h2 hn hfull
    unfold npy_free_cache_dim
    dsimp only
    rw [if_neg (Nat.not_lt.mpr h2)]
    refine free_cache_bypass p n NBUCKETS_DIM .dim PyArray_free t ?_
    rintro ⟨-, -, hlt⟩
    rw [getCache_dim, hfull] at hlt
    exact absurd hlt (lt_irrefl _)

/-- Witness for C3 at a concrete input: the invariant holds after a short
concrete operation sequence from a fresh start, and a concrete full bucket
bypasses to the deallocator. -/
theorem claim_C3_bucket_capacity_witness :
    CapInv (initState [16, 48] false) ∧
    (CapInv (runOps (initState [16, 48] false)
        [Op.allocData 5, Op.freeData 32 5, Op.allocDim 2, Op.setAlign 32]) ∧
      (∀ p n t, n < NBUCKETS → (t.datacache n).available = NCACHE →
        npy_free_cache p n t = PyDataMem_FREE p t) ∧
      (∀ p n t, 2 ≤ n → n < NBUCKETS_DIM → (t.dimcache n).available = NCACHE →
        npy_free_cache_dim p n t = PyArray_free p t)) :=
  ⟨fun i => ⟨Nat.zero_le _, Nat.zero_le _⟩,
    claim_C3_bucket_capacity (initState [16, 48] false)
      [Op.allocData 5, Op.freeData 32 5, Op.allocDim 2, Op.setAlign 32]
      (fun i => ⟨Nat.zero_le _, Nat.zero_le _⟩)⟩

/-- Equation for a successful `calloc` with a non-null oracle head. -/
theorem sysCalloc_cons (n : Nat) (s : AllocState) (b : Ptr) (rest : List Ptr)
    (hf : s.fresh = b :: rest) (hb : b ≠ 0) :
    sysCalloc n s = (b, { s with
      fresh := rest
      blocks := fun x => if x = b then some n else s.blocks x
      mem := memsetBytes s.mem b 0 n }) := by
  unfold sysCalloc
  rw [hf]
  exact if_neg hb

/-- Equation for `calloc` with an exhausted oracle. -/
theorem sysCalloc_nil (n : Nat) (s : AllocState) (hf : s.fresh = []) :
    sysCalloc n s = (0, s) := by
  unfold sysCalloc
  rw [hf]

/-- Equation for a failing `calloc` (oracle head `0`). -/
theorem sysCalloc_zero (n : Nat) (s : AllocState) (rest : List Ptr)
    (hf : s.fresh = 0 :: rest) :
    sysCalloc n s = (0, { s with fresh := rest }) := by
  unfold sysCalloc
  rw [hf]
  exact if_pos rfl

/-- A successful `calloc` zero-fills its allocation. -/
theorem sysCalloc_mem_zero (n : Nat) (s : AllocState)
    (h0 : (sysCalloc n s).1 ≠ 0) :
    ∀ x, (sysCalloc n s).1 ≤ x → x < (sysCalloc n s).1 + n →
      (sysCalloc n s).2.mem x = 0 := by
  intro x h1 h2
  rcases hf : s.fresh with _ | ⟨b, rest⟩
  · rw [sysCalloc_nil n s hf] at h0
    exact absurd rfl h0
  · by_cases hb : b = 0
    · rw [hb] at hf
      rw [sysCalloc_zero n s rest hf] at h0
      exact absurd rfl h0
    · rw [sysCalloc_cons n s b rest hf hb] at h0 h1 h2 ⊢
      dsimp only at h1 h2 ⊢
      show memsetBytes s.mem b 0 n x = 0
      unfold memsetBytes
      rw [if_pos ⟨h1, h2⟩]

/-- The aligned address lies at least `PTRSIZE` past the base. -/
theorem align_pointer_fst_ge (t : AllocState) (b : Nat) :
    b + PTRSIZE ≤ (align_pointer t b).1 := by
  rw [align_pointer_fst]
  have hge := align_down_ge (b + PTRSIZE + t.alignMask) t.alignMask
  rw [Nat.add_sub_cancel] at hge
  exact hge

/-- The aligned address lies at most `PTRSIZE + mask` past the base. -/
theorem align_pointer_fst_le (t : AllocState) (b : Nat) :
    (align_pointer t b).1 ≤ b + PTRSIZE + t.alignMask := by
  rw [align_pointer_fst]
  exact align_down_le _ _

/-- `align_pointer` writes only the header word: memory at or above the
aligned address is untouched. -/
theorem align_pointer_mem_of_ge (t : AllocState) (b x : Nat)
    (hx : (align_pointer t b).1 ≤ x) :
    (align_pointer t b).2.mem x = t.mem x := by
  have hA := align_pointer_fst_ge t b
  rw [align_pointer_snd_mem]
  apply writeWord_outside
  right
  have h8 : PTRSIZE ≤ (align_pointer t b).1 :=
    le_trans (Nat.le_add_left PTRSIZE b) hA
  show (align_pointer t b).1 - PTRSIZE + PTRSIZE ≤ x
  rw [Nat.sub_add_cancel h8]
  exact hx

/-- C6: overflow-checked zeroed allocation.  A pair whose product exceeds
the 64-bit size representation is rejected by the checked multiply before
any allocation: the result is null and the state changes only by the hook
invocation (heap, oracle and memory untouched).  A non-overflowing
successful `PyDataMem_NEW_ZEROED` returns a region zero-filled over
`nelems * elsize` bytes, and the cache-served `npy_alloc_cache_zero` path
zero-fills its `sz` bytes as well. -/
theorem claim_C6_overflow_checked_zeroed :
    (∀ n e s, 2 ^ 64 ≤ n * e →
      PyDataMem_NEW_ZEROED n e s = (0, callHook 0 0 (n * e % 2 ^ 64) s)) ∧
    (∀ n e s, n * e < 2 ^ 64 → (PyDataMem_NEW_ZEROED n e s).1 ≠ 0 →
      ∀ x, (PyDataMem_NEW_ZEROED n e s).1 ≤ x →
        x < (PyDataMem_NEW_ZEROED n e s).1 + n * e →
        (PyDataMem_NEW_ZEROED n e s).2.mem x = 0) ∧
    (∀ sz s, sz < NBUCKETS → (npy_alloc_cache_zero sz s).1 ≠ 0 →
      ∀ x, (npy_alloc_cache_zero sz s).1 ≤ x →
        x < (npy_alloc_cache_zero sz s).1 + sz →
        (npy_alloc_cache_zero sz s).2.mem x = 0) := by
  refine ⟨?_, ?_, ?_⟩
  · intro n e s hovf
    have ho : (npy_mul_with_overflow_intp n e).1 = true := by
      unfold npy_mul_with_overflow_intp
      exact decide_eq_true hovf
    unfold PyDataMem_NEW_ZEROED
    dsimp only
    rw [if_pos ho]
  · intro n e s hlt hp x hx1 hx2
    have ho : (npy_mul_with_overflow_intp n e).1 = false := by
      unfold npy_mul_with_overflow_intp
      exact decide_eq_false (by omega)
    have hsz : (npy_mul_with_overflow_intp n e).2 = n * e := by
      unfold npy_mul_with_overflow_intp
      exact Nat.mod_eq_of_lt hlt
    have h0 : (sysCalloc (get_aligned_size s (n * e)) s).1 ≠ 0 := by
      intro h0
      apply hp
      unfold PyDataMem_NEW_ZEROED
      dsimp only
      rw [ho]
      simp only [Bool.false_eq_true, if_false]
      rw [hsz, if_pos h0]
    have hkey : PyDataMem_NEW_ZEROED n e s =
        ((align_pointer (sysCalloc (get_aligned_size s (n * e)) s).2
            (sysCalloc (get_aligned_size s (n * e)) s).1).1,
          callHook 0 (align_pointer (sysCalloc (get_aligned_size s (n * e)) s).2
            (sysCalloc (get_aligned_size s (n * e)) s).1).1 (n * e % 2 ^ 64)
            (align_pointer (sysCalloc (get_aligned_size s (n * e)) s).2
              (sysCalloc (get_aligned_size s (n * e)) s).1).2) := by
      unfold PyDataMem_NEW_ZEROED
      dsimp only
      rw [ho]
      simp only [Bool.false_eq_true, if_false]
      rw [hsz, if_neg h0]
    rw [hkey] at hx1 hx2 ⊢
    dsimp only at hx1 hx2 ⊢
    rw [callHook_mem]
    rw [align_pointer_mem_of_ge _ _ x hx1]
    apply sysCalloc_mem_zero _ _ h0 x
    · have hge := align_pointer_fst_ge (sysCalloc (get_aligned_size s (n * e)) s).2
        (sysCalloc (get_aligned_size s (n * e)) s).1
      exact le_trans (le_trans (Nat.le_add_right _ _) hge) hx1
    · have hup := align_pointer_fst_le (sysCalloc (get_aligned_size s (n * e)) s).2
        (sysCalloc (get_aligned_size s (n * e)) s).1
      rw [sysCalloc_alignMask] at hup
      have hgs : get_aligned_size s (n * e) = n * e + PTRSIZE + s.alignMask := rfl
      calc x < (align_pointer (sysCalloc (get_aligned_size s (n * e)) s).2
            (sysCalloc (get_aligned_size s (n * e)) s).1).1 + n * e := hx2
        _ ≤ (sysCalloc (get_aligned_size s (n * e)) s).1 + PTRSIZE + s.alignMask
            + n * e := Nat.add_le_add_right hup _
        _ = (sysCalloc (get_aligned_size s (n * e)) s).1
            + (n * e + PTRSIZE + s.alignMask) := by ring
        _ = (sysCalloc (get_aligned_size s (n * e)) s).1
            + get_aligned_size s (n * e) := by rw [hgs]
  · intro sz s hsz hp x h1 h2
    unfold npy_alloc_cache_zero at hp h1 h2 ⊢
    rw [if_pos hsz] at hp h1 h2 ⊢
    dsimp only at hp h1 h2 ⊢
    by_cases hz : (_npy_alloc_cache sz 1 NBUCKETS .data PyDataMem_NEW s).1 ≠ 0
    · rw [if_pos hz] at hp h1 h2 ⊢
      dsimp only at h1 h2 ⊢
      show memsetBytes _ _ 0 sz x = 0
      unfold memsetBytes
      rw [if_pos ⟨h1, h2⟩]
    · rw [if_neg hz] at hp
      exact absurd hp hz

/-- Witness for C6 at concrete inputs: the overflowing pair
`(2^32, 2^32)` is rejected before allocation, and a concrete zeroed
allocation of 20 bytes reads back 0. -/
theorem claim_C6_overflow_checked_zeroed_witness :
    (2 ^ 64 ≤ (2 ^ 32) * (2 ^ 32 : Nat) ∧
      PyDataMem_NEW_ZEROED (2 ^ 32) (2 ^ 32) (initState [16] false)
        = (0, callHook 0 0 ((2 ^ 32) * (2 ^ 32) % 2 ^ 64) (initState [16] false))) ∧
    ((4 * 5 : Nat) < 2 ^ 64 ∧
      (PyDataMem_NEW_ZEROED 4 5 (initState [16] false)).1 ≠ 0 ∧
      (PyDataMem_NEW_ZEROED 4 5 (initState [16] false)).2.mem 35 = 0) :=
  ⟨⟨by norm_num, claim_C6_overflow_checked_zeroed.1 (2 ^ 32) (2 ^ 32)
      (initState [16] false) (by norm_num)⟩,
    ⟨by norm_num, by decide,
      claim_C6_overflow_checked_zeroed.2.1 4 5 (initState [16] false)
        (by norm_num) (by decide) 35 (by decide) (by decide)⟩⟩

/-- C8 counterexample: from a fresh start, allocate 100 bytes (address 32,
aligned to the then-current 16), successfully raise the alignment to 64
(the purge does run: every data bucket is empty afterwards), then free the
block — it re-enters the now-empty bucket — and allocate 100 bytes again:
the allocation performed after the change returns address 32, which is
aligned only to the old, smaller value (`32 % 64 ≠ 0`).  So the purge does
not ensure the claimed parenthetical consequence. -/
theorem claim_C8_counterexample :
    raiseS1.align = 16 ∧
    (npy_datamem_set_align 64 raiseS1).1 = 0 ∧
    raiseS2.align = 64 ∧
    (∀ i, (raiseS2.datacache i).available = 0) ∧
    raiseP = 32 ∧
    (npy_alloc_cache 100 raiseS3).1 = raiseP ∧
    ¬(raiseP % raiseS2.align = 0) := by
  have h2eq := raiseS2_eq
  refine ⟨raiseS1_align, ?_, ?_, ?_, ?_, ?_, ?_⟩
  · rw [set_align_success 64 raiseS1 (by unfold MIN_ALIGN; omega) ⟨6, rfl⟩]
  · rw [h2eq]
  · intro i
    rw [h2eq]
    show (raiseS1.datacache i).available = 0
    rw [raiseS1_datacache]
    rfl
  · decide
  · show (npy_alloc_cache 100 (npy_free_cache raiseP 100 raiseS2)).1 = raiseP
    rw [h2eq]
    decide
  · rw [h2eq]
    decide

/-- C8 amended: a successful `set_alignment` to a strictly larger value
resets every data bucket's `available` to `0` (each cached block having
been handed to `PyDataMem_FREE`) and leaves the dimension cache unchanged,
before the new alignment takes effect; a successful call with a value equal
to or smaller than the current alignment purges neither cache.  (The
stronger consequence that no later allocation returns a block aligned only
to the old value does not hold: a block allocated before the raise and
freed after it re-enters the data cache, see the counterexample.) -/
theorem claim_C8_amended (a : Nat) (s : AllocState) (h1 : MIN_ALIGN ≤ a)
    (h2 : ∃ k, a = 2 ^ k) :
    (s.align < a →
      (∀ i, i < NBUCKETS →
        ((npy_datamem_set_align a s).2.datacache i).available = 0) ∧
      (npy_datamem_set_align a s).2.dimcache = s.dimcache ∧
      (npy_datamem_set_align a s).2.align = a ∧
      (npy_datamem_set_align a s).2.alignMask = a - 1) ∧
    (a ≤ s.align →
      (npy_datamem_set_align a s).2.datacache = s.datacache ∧
      (npy_datamem_set_align a s).2.dimcache = s.dimcache ∧
      (npy_datamem_set_align a s).2.align = a) := by
  rw [set_align_success a s h1 h2]
  constructor
  · intro hlt
    rw [if_pos hlt]
    refine ⟨?_, ?_, rfl, rfl⟩
    · intro i hi
      exact clear_cache_available NBUCKETS .data PyDataMem_FREE
        (fun p t => PyDataMem_FREE_datacache p t) s i hi
    · show (_npy_clear_cache NBUCKETS .data PyDataMem_FREE s).dimcache = s.dimcache
      exact clear_cache_preserve (fun u => u.dimcache) NBUCKETS .data PyDataMem_FREE
        (fun p t => PyDataMem_FREE_dimcache p t) (fun t f => rfl) s
  · intro hle
    rw [if_neg (Nat.not_lt.mpr hle)]
    exact ⟨rfl, rfl, rfl⟩

/-- Witness for C8 amended at a concrete input: raising 16 → 32 on a fresh
start. -/
theorem claim_C8_amended_witness :
    (MIN_ALIGN ≤ 32 ∧ ∃ k, (32 : Nat) = 2 ^ k) ∧
    (((initState [] false).align < 32 →
      (∀ i, i < NBUCKETS →
        ((npy_datamem_set_align 32 (initState [] false)).2.datacache i).available = 0) ∧
      (npy_datamem_set_align 32 (initState [] false)).2.dimcache
        = (initState [] false).dimcache ∧
      (npy_datamem_set_align 32 (initState [] false)).2.align = 32 ∧
      (npy_datamem_set_align 32 (initState [] false)).2.alignMask = 32 - 1) ∧
    (32 ≤ (initState [] false).align →
      (npy_datamem_set_align 32 (initState [] false)).2.datacache
        = (initState [] false).datacache ∧
      (npy_datamem_set_align 32 (initState [] false)).2.dimcache
        = (initState [] false).dimcache ∧
      (npy_datamem_set_align 32 (initState [] false)).2.align = 32)) :=
  ⟨⟨by decide, ⟨5, rfl⟩⟩,
    claim_C8_amended 32 (initState [] false) (by decide) ⟨5, rfl⟩⟩

/-- C5, evaluated at the failing input.  Alignment 32 (configured through
`set_alignment` from a fresh start, oracle `[16, 96]`): `PyDataMem_NEW 16`
returns user address 32 over base 16 (offset 16); the caller fills its 16
bytes with `100..115`; `PyDataMem_RENEW 32 40` sees `realloc` move the base
to 96, where the alignment offset becomes 32.  `align_pointer` stores the
header word at `[120, 128)` — inside the not-yet-moved payload — before the
`memmove` from offset 16 runs, so of the `min(oldSize, newSize) = 16` bytes
the claim requires preserved, bytes 8..15 of the result hold the header
(`96, 0, ...`) instead of `108..115`; bytes 0..7 survive. -/
theorem claim_C5_renew_clobbers_payload :
    renewS0.align = 32 ∧
    (PyDataMem_NEW 16 renewS0).1 = 32 ∧
    (∀ j, j < 16 → renewS2.mem (32 + j) = 100 + j) ∧
    (PyDataMem_RENEW 32 40 renewS2).1 = 128 ∧
    min 16 40 = 16 ∧
    (∀ j, j < 8 → (PyDataMem_RENEW 32 40 renewS2).2.mem (128 + j) = 100 + j) ∧
    (PyDataMem_RENEW 32 40 renewS2).2.mem (128 + 8) = 96 ∧
    (PyDataMem_RENEW 32 40 renewS2).2.mem (128 + 9) = 0 ∧
    ¬((96 : Nat) = 100 + 8) ∧ ¬((0 : Nat) = 100 + 9) := by
  have e1 : renewS1 = (PyDataMem_NEW 16
      ({ initState [16, 96] false with align := 32, alignMask := 31 })).2 := by
    unfold renewS1
    rw [renewS0_eq]
  have e2 : renewS2 = { (PyDataMem_NEW 16
      ({ initState [16, 96] false with align := 32, alignMask := 31 })).2 with
      mem := storeBytes (PyDataMem_NEW 16
        ({ initState [16, 96] false with align := 32, alignMask := 31 })).2.mem
        32 renewPayload } := by
    unfold renewS2
    rw [e1]
  refine ⟨by rw [renewS0_eq], by rw [renewS0_eq]; decide, ?_, ?_, by decide,
    ?_, ?_, ?_, by decide, by decide⟩
  · rw [e2]
    decide
  · rw [e2]
    decide
  · rw [e2]
    decide
  · rw [e2]
    decide
  · rw [e2]
    decide

end NpyAlloc
